import Mathlib

/-!
Verification development for the `paperfig` run-orchestration engine.

The definitions below are a shallow embedding of the Python sources:
* `paperfig/agents/critic.py` (CriticAgent),
* `paperfig/agents/architecture_critic.py` (ArchitectureCriticAgent),
* `paperfig/audits/reproducibility.py` (run_reproducibility_audit),
* `paperfig/pipeline/orchestrator.py` (Orchestrator: generate / rerun /
  diff / inspect and their helpers).

Numbers that Python stores as floats are modelled as exact rationals (`ℚ`);
all score arithmetic in the sources is addition/comparison of decimal
literals, which ℚ models exactly.  File contents are modelled as the
structured values the program writes (JSON serialization of our model
values is injective, so byte equality of persisted JSON artifacts is
modelled as equality of the model values).  External collaborators
(PaperBanana rendering client, docs-drift checker, clock, file-system
roots) are oracle parameters, per the spec's collaborator contracts.
-/

/-- Characters of `pat` occur as a contiguous sublist of `s`, starting at the
head of `s`. Mirrors Python `str.startswith` on the char-list level. -/
def charsStartsWith : List Char → List Char → Bool
  | [], _ => true
  | _ :: _, [] => false
  | p :: ps, c :: cs => p == c && charsStartsWith ps cs

/-- Scanner for non-overlapping occurrence counting: while `skip` is
positive the scanner is still inside a previous match and only consumes
characters. -/
def countOccSkip (pat : List Char) : Nat → List Char → Nat
  | _, [] => 0
  | Nat.succ n, _ :: rest => countOccSkip pat n rest
  | 0, c :: rest =>
    if charsStartsWith pat (c :: rest) then
      1 + countOccSkip pat (pat.length - 1) rest
    else
      countOccSkip pat 0 rest

/-- Number of non-overlapping occurrences of `pat` in `s`, scanning left to
right: the model of Python `str.count` (for the non-empty patterns the
critic uses). -/
def countOccChars (pat s : List Char) : Nat :=
  countOccSkip pat 0 s

/-- Whether `pat` occurs somewhere in `s` (model of Python `in` on strings). -/
def charsContains (pat : List Char) : List Char → Bool
  | [] => charsStartsWith pat []
  | c :: rest => charsStartsWith pat (c :: rest) || charsContains pat rest

/-- Python `pat in s` for strings. -/
def strContainsSub (s pat : String) : Bool :=
  charsContains pat.toList s.toList

/-- Python `s.count(pat)` for the critic's non-empty tag patterns. -/
def strCount (s pat : String) : Nat :=
  countOccChars pat.toList s.toList

/-- Python `s.lower()` (the strings the program lowers are ASCII, where
`Char.toLower` agrees with Python). -/
def pyLower (s : String) : String :=
  ⟨s.data.map Char.toLower⟩

/-- Python `s.strip()` (the stripped strings hold ASCII whitespace only). -/
def pyStrip (s : String) : String :=
  ⟨((s.data.dropWhile Char.isWhitespace).reverse.dropWhile Char.isWhitespace).reverse⟩

/-- Replacement scanner, non-overlapping left-to-right like Python
`str.replace`; while `skip` is positive the scanner is inside the already
replaced match. -/
def replaceSkip (pat rep : List Char) : Nat → List Char → List Char
  | _, [] => []
  | Nat.succ n, _ :: rest => replaceSkip pat rep n rest
  | 0, c :: rest =>
    if charsStartsWith pat (c :: rest) then
      rep ++ replaceSkip pat rep (pat.length - 1) rest
    else
      c :: replaceSkip pat rep 0 rest

/-- Python `s.replace(pat, rep)` for non-empty `pat`. -/
def pyReplace (s pat rep : String) : String :=
  ⟨replaceSkip pat.data rep.data 0 s.data⟩

/-- Python dict lookup `d.get(k)` for a dict built by inserting the pairs of
`l` in order (later bindings win). -/
def dictGet {α : Type} (l : List (String × α)) (k : String) : Option α :=
  (l.reverse.find? (fun p => p.1 == k)).map (·.2)

/-- Source span, per `paperfig/utils/traceability.py::SourceSpan` (and the
span dicts carried in plan entries). -/
structure SourceSpan where
  sectionName : String
  spanStart : Int
  spanEnd : Int
  quote : String
deriving DecidableEq, Repr

/-- Paper section, per `paperfig/utils/types.py::PaperSection`. -/
structure PaperSection where
  name : String
  text : String
  secStart : Int
  secEnd : Int
deriving DecidableEq, Repr

/-- Parsed paper, per `paperfig/utils/types.py::PaperContent`. -/
structure PaperContent where
  source_path : String
  full_text : String
  sections : List (String × PaperSection)
deriving DecidableEq, Repr

/-- Figure plan entry, per `paperfig/utils/types.py::FigurePlan`. -/
structure FigurePlan where
  figure_id : String
  title : String
  kind : String
  order : Int
  abstraction_level : String
  description : String
  justification : String
  template_id : String
  source_spans : List SourceSpan
deriving DecidableEq, Repr

/-- Critique report, per `paperfig/utils/types.py::CritiqueReport`. -/
structure CritiqueReport where
  figure_id : String
  score : ℚ
  threshold : ℚ
  quality_dimensions : List (String × ℚ)
  dimension_threshold : ℚ
  failed_dimensions : List String
  issues : List String
  recommendations : List String
  passed : Bool
deriving DecidableEq, Repr

/-- Python `round(q, 3)` on the exact rational model (rounding to the nearest
multiple of 1/1000; the sources never branch on a value where the tie rule
could differ from float semantics). -/
def roundTo3 (q : ℚ) : ℚ :=
  (round (q * 1000) : ℤ) / 1000

/-- CriticAgent._score_faithfulness. -/
def scoreFaithfulness (svg : String) (plan : FigurePlan) (paper : PaperContent) : ℚ :=
  let s1 : ℚ := 0.35
  let s2 := if !plan.source_spans.isEmpty then s1 + 0.3 else s1
  let s3 := if 20 < (pyStrip plan.description).length then s2 + 0.1 else s2
  let s4 :=
    if plan.kind == "results_plot"
        && (match dictGet paper.sections "results" with
            | some sec => sec.text != ""
            | none => false) then
      s3 + 0.15
    else s3
  let s5 := if strContainsSub (pyLower svg) "mock paperbanana output" then s4 + 0.05 else s4
  min s5 1

/-- CriticAgent._score_readability. -/
def scoreReadability (svg : String) : ℚ :=
  let s1 : ℚ := 0.3
  let textCount := strCount svg "<text"
  let s2 :=
    if 2 ≤ textCount then s1 + 0.25
    else if textCount == 1 then s1 + 0.15
    else s1
  let s3 :=
    if ["<rect", "<path", "<line", "<circle"].any (fun tag => strContainsSub svg tag) then
      s2 + 0.2
    else s2
  let s4 := if strContainsSub svg "font-size" then s3 + 0.1 else s3
  let s5 := if strContainsSub svg "viewBox" then s4 + 0.1 else s4
  min s5 1

/-- CriticAgent._score_conciseness. -/
def scoreConciseness (svg : String) : ℚ :=
  let s1 : ℚ := 0.5
  let length := svg.length
  let s2 :=
    if 250 ≤ length ∧ length ≤ 9000 then s1 + 0.25
    else if 12000 < length then s1 - 0.2
    else s1 - 0.1
  let primitiveCount :=
    (["<rect", "<path", "<line", "<circle", "<polygon"].map (fun tag => strCount svg tag)).sum
  let s3 :=
    if 1 ≤ primitiveCount ∧ primitiveCount ≤ 40 then s2 + 0.2
    else if 120 < primitiveCount then s2 - 0.2
    else s2
  max (min s3 1) 0

/-- CriticAgent._score_aesthetics. -/
def scoreAesthetics (svg : String) : ℚ :=
  let s1 : ℚ := 0.35
  let s2 :=
    if strContainsSub svg "viewBox" && strContainsSub svg "width" && strContainsSub svg "height" then
      s1 + 0.2
    else s1
  let s3 := if strContainsSub svg "stroke" then s2 + 0.15 else s2
  let s4 := if strContainsSub svg "fill" then s3 + 0.15 else s3
  let s5 := if strContainsSub svg "font-family" then s4 + 0.1 else s4
  min s5 1

/-- CriticAgent._score_dimensions: the four named quality dimensions, in the
dict insertion order of the source. -/
def scoreDimensions (svg : String) (plan : FigurePlan) (paper : PaperContent) :
    List (String × ℚ) :=
  [("faithfulness", scoreFaithfulness svg plan paper),
   ("readability", scoreReadability svg),
   ("conciseness", scoreConciseness svg),
   ("aesthetics", scoreAesthetics svg)]

/-- Issue text appended when readability fails (critic.py line 25). -/
def readabilityIssue : String :=
  "Readability below threshold: labels or visual structure are insufficient."

/-- Issue text appended when faithfulness fails (critic.py line 28). -/
def faithfulnessIssue : String :=
  "Faithfulness below threshold: figure support from source spans is weak."

/-- Issue text appended when conciseness fails (critic.py line 31). -/
def concisenessIssue : String :=
  "Conciseness below threshold: figure is either too sparse or overloaded."

/-- Issue text appended when aesthetics fails (critic.py line 34). -/
def aestheticsIssue : String :=
  "Aesthetics below threshold: layout balance and presentation need refinement."

/-- The critic's computed score: mean of the four dimension scores
(critic.py line 21), before the rounding applied when the report is
assembled. -/
def criticScore (svg : String) (plan : FigurePlan) (paper : PaperContent) : ℚ :=
  ((scoreDimensions svg plan paper).map Prod.snd).sum /
    (((scoreDimensions svg plan paper).length : ℚ))

/-- The critic's `failed_dimensions` (critic.py line 22): names of the
dimensions scoring strictly below the dimension threshold, in dict order. -/
def criticFailedDims (dimension_threshold : ℚ) (svg : String) (plan : FigurePlan)
    (paper : PaperContent) : List String :=
  ((scoreDimensions svg plan paper).filter (fun p => p.2 < dimension_threshold)).map Prod.fst

/-- The critic's `issues` list (critic.py lines 24-35): one fixed message
per failed dimension, in the order of the source's `if` blocks. -/
def criticIssues (dimension_threshold : ℚ) (svg : String) (plan : FigurePlan)
    (paper : PaperContent) : List String :=
  let failed := criticFailedDims dimension_threshold svg plan paper
  (if failed.contains "readability" then [readabilityIssue] else []) ++
  (if failed.contains "faithfulness" then [faithfulnessIssue] else []) ++
  (if failed.contains "conciseness" then [concisenessIssue] else []) ++
  (if failed.contains "aesthetics" then [aestheticsIssue] else [])

/-- The critic's `recommendations` before the final not-passed append
(critic.py lines 24-35). -/
def criticBaseRecommendations (dimension_threshold : ℚ) (svg : String) (plan : FigurePlan)
    (paper : PaperContent) : List String :=
  let failed := criticFailedDims dimension_threshold svg plan paper
  (if failed.contains "readability" then
    ["Add clear labels, improve hierarchy, and avoid dense overlaps."] else []) ++
  (if failed.contains "faithfulness" then
    ["Tie every key label and relation to explicit source text spans."] else []) ++
  (if failed.contains "conciseness" then
    ["Keep only essential elements and remove decorative clutter."] else []) ++
  (if failed.contains "aesthetics" then
    ["Improve alignment, spacing, and consistent visual encoding."] else [])

/-- The critic's `passed` decision (critic.py lines 37-41): score at least
the threshold, no failed dimension, and no issue containing "invalid". -/
def criticPassed (threshold dimension_threshold : ℚ) (svg : String) (plan : FigurePlan)
    (paper : PaperContent) : Bool :=
  decide (threshold ≤ criticScore svg plan paper) &&
    (criticFailedDims dimension_threshold svg plan paper).isEmpty &&
    !((criticIssues dimension_threshold svg plan paper).any
      (fun issue => strContainsSub (pyLower issue) "invalid"))

/-- CriticAgent.critique (critic.py lines 16-56): score the SVG text,
collect failed dimensions, issues and recommendations, decide `passed`, and
assemble the report with per-dimension and total scores rounded to three
decimals (the total clamped to 1). -/
def criticCritique (threshold dimension_threshold : ℚ) (svg : String)
    (plan : FigurePlan) (paper : PaperContent) : CritiqueReport :=
  let passed := criticPassed threshold dimension_threshold svg plan paper
  { figure_id := plan.figure_id
    score := roundTo3 (min (criticScore svg plan paper) 1)
    threshold := threshold
    quality_dimensions := (scoreDimensions svg plan paper).map (fun p => (p.1, roundTo3 p.2))
    dimension_threshold := dimension_threshold
    failed_dimensions := criticFailedDims dimension_threshold svg plan paper
    issues := criticIssues dimension_threshold svg plan paper
    recommendations :=
      if passed then criticBaseRecommendations dimension_threshold svg plan paper
      else criticBaseRecommendations dimension_threshold svg plan paper ++
        ["Revise layout to improve clarity and alignment with the paper."]
    passed := passed }

/-- Feedback dict built from a critique report and handed to the next
generator call (orchestrator.py lines 255-260). -/
structure Feedback where
  previous_score : ℚ
  issues : List String
  recommendations : List String
  failed_dimensions : List String
deriving DecidableEq, Repr

/-- orchestrator.py lines 255-260: package the round's critique as the next
round's generator feedback. -/
def mkFeedback (report : CritiqueReport) : Feedback :=
  { previous_score := report.score
    issues := report.issues
    recommendations := report.recommendations
    failed_dimensions := report.failed_dimensions }

/-- Trace record element, per `paperfig/utils/traceability.py::ElementTrace`. -/
structure ElementTrace where
  element_id : String
  element_type : String
  label : String
  source_spans : List SourceSpan
deriving DecidableEq, Repr

/-- Traceability file content, per
`paperfig/utils/traceability.py::TraceabilityRecord`. -/
structure TraceRecord where
  figure_id : String
  elements : List ElementTrace
deriving DecidableEq, Repr

/-- Artifact triple returned by the Figure Generator collaborator for one
iteration (`FigureCandidate` plus the contents of the three files it wrote
into the iteration directory). -/
structure Candidate where
  svg : String
  element_metadata : List ElementTrace
  trace : TraceRecord
deriving DecidableEq, Repr

/-- One round of the per-figure loop: the generator invocation (iteration
index and the feedback argument it received), its candidate, and the critique
persisted as `iter_<n>/critique.json`. -/
structure IterRecord where
  iteration : Nat
  feedback : Option Feedback
  candidate : Candidate
  report : CritiqueReport
deriving DecidableEq, Repr

/-- The `for iteration in range(1, max_iterations + 1)` loop of
`Orchestrator._execute_generation` (orchestrator.py lines 238-285) for a
single figure: run up to `remaining` more rounds starting at index `start`
with current feedback `fb`; return the iteration records in order plus the
`accepted` flag (true when some round's critique passed and the loop broke). -/
def runIters (gen : Nat → Option Feedback → Candidate)
    (crit : Candidate → CritiqueReport) :
    Nat → Nat → Option Feedback → List IterRecord × Bool
  | _, 0, _ => ([], false)
  | start, remaining + 1, fb =>
    let cand := gen start fb
    let rep := crit cand
    let recd : IterRecord :=
      { iteration := start, feedback := fb, candidate := cand, report := rep }
    if rep.passed then
      ([recd], true)
    else
      let rest := runIters gen crit (start + 1) remaining (some (mkFeedback rep))
      (recd :: rest.1, rest.2)

/-- Per-figure outcome: all iteration records, the acceptance flag, and the
final artifact set (`figures/<id>/final/`), if one was copied. -/
structure FigureOutcome where
  iters : List IterRecord
  accepted : Bool
  final : Option Candidate
deriving DecidableEq, Repr

/-- One figure's complete treatment by `_execute_generation`: run the loop
from iteration 1 with no feedback; on a pass, the passing round's artifacts
are copied to `final/` (lines 273-285); with no pass but at least one round,
the artifacts sitting in `iter_<max_iterations>/` — the last round's — are
copied as fallback (lines 287-294); with no rounds at all nothing is copied. -/
def figureOutcome (gen : Nat → Option Feedback → Candidate)
    (crit : Candidate → CritiqueReport) (max_iterations : Nat) : FigureOutcome :=
  let res := runIters gen crit 1 max_iterations none
  { iters := res.1
    accepted := res.2
    final := (res.1.getLast?).map (·.candidate) }

/-- Run metadata, per `Orchestrator._write_run_metadata` (run.json).  The
`seed` key is always written (with value `None`); `rerun_of`/`reused_plan`
appear only when rerun supplies metadata overrides. -/
structure RunMeta where
  run_id : String
  paper_path : String
  created_at : String
  max_iterations : Nat
  quality_threshold : ℚ
  dimension_threshold : ℚ
  template_pack : String
  arch_critique_mode : String
  arch_critique_block_severity : String
  repro_audit_mode : String
  config_hash : String
  rerun_of : Option String
  reused_plan : Bool
deriving DecidableEq, Repr

/-- A plan entry as persisted in `plan.json` (a JSON object with the fields
`asdict(FigurePlan)` writes, at their dataclass types). -/
structure PlanDict where
  figure_id : String
  title : String
  kind : String
  order : Int
  abstraction_level : String
  description : String
  justification : String
  template_id : String
  source_spans : List SourceSpan
deriving DecidableEq, Repr

/-- `asdict` serialization of a plan entry (`Orchestrator._write_plan`). -/
def planToDict (p : FigurePlan) : PlanDict :=
  { figure_id := p.figure_id
    title := p.title
    kind := p.kind
    order := p.order
    abstraction_level := p.abstraction_level
    description := p.description
    justification := p.justification
    template_id := p.template_id
    source_spans := p.source_spans }

/-- `Orchestrator._plan_from_dict` (orchestrator.py lines 892-904): rebuild a
FigurePlan from a persisted plan entry; on a well-typed entry every
`str`/`int`/`list` coercion is the identity. -/
def planFromDict (d : PlanDict) : FigurePlan :=
  { figure_id := d.figure_id
    title := d.title
    kind := d.kind
    order := d.order
    abstraction_level := d.abstraction_level
    description := d.description
    justification := d.justification
    template_id := d.template_id
    source_spans := d.source_spans }

/-- Docs drift checker outcome (external collaborator
`run_docs_regeneration`): the report dict persisted as
`docs_drift_report.json`. -/
structure DocsReport where
  drift_detected : Bool
  documents : List String
deriving DecidableEq, Repr

/-- Architecture critique finding, per
`paperfig/utils/types.py::ArchitectureCritiqueFinding`. -/
structure ArchFinding where
  finding_id : String
  severity : String
  title : String
  description : String
  evidence : String
  suggestion : String
deriving DecidableEq, Repr

/-- Architecture critique report, per
`paperfig/utils/types.py::ArchitectureCritiqueReport` (generated_at omitted:
clock output, never read back by the core). -/
structure ArchReport where
  run_id : String
  block_severity : String
  findings : List ArchFinding
  blocked : Bool
  summary : String
deriving DecidableEq, Repr

/-- Reproducibility audit check, per
`paperfig/utils/types.py::ReproAuditCheck` (the `details` payload is omitted:
it is never read back). -/
structure ReproCheck where
  check_id : String
  description : String
  required : Bool
  passed : Bool
  severity : String
  message : String
deriving DecidableEq, Repr

/-- Reproducibility audit report, per
`paperfig/utils/types.py::ReproAuditReport` (generated_at / environment
omitted: clock and platform strings, never read back by the core). -/
structure ReproReport where
  run_id : String
  mode : String
  checks : List ReproCheck
  passed : Bool
  summary : String
deriving DecidableEq, Repr

/-- Per-figure summary assembled by `Orchestrator.inspect`
(orchestrator.py lines 591-619).  `final_svg` models `final_svg_path`: it
holds the content of `final/figure.svg` when that file exists (diff hashes
the file behind the path, and SHA-256 is collision-free in the model, so
content equality models hash equality). -/
structure FigureSummary where
  figure_id : String
  title : String
  kind : String
  template_id : String
  iterations_attempted : Nat
  max_iterations_hit : Bool
  accepted : Bool
  final_score : Option ℚ
  final_passed : Option Bool
  failed_dimensions : List String
  issues : List String
  recommendations : List String
  total_elements : Nat
  traced_elements : Nat
  coverage : Option ℚ
  iteration_history : List (Nat × ℚ × Bool × List String)
  final_svg : Option String
deriving DecidableEq, Repr, Inhabited

/-- Aggregate block of an inspect summary (orchestrator.py lines 650-657). -/
structure Aggregate where
  total_figures : Nat
  accepted_count : Nat
  failed_count : Nat
  avg_final_score : Option ℚ
  avg_traceability_coverage : Option ℚ
  max_iterations_hit : List String
deriving DecidableEq, Repr

/-- Inspect summary (orchestrator.py lines 509-517): `aggregate = none`
models the early return that leaves `aggregate` as the empty dict when the
figures directory is missing. -/
structure InspectSummary where
  run_id : String
  metadata : Option RunMeta
  plan_count : Nat
  figures : List FigureSummary
  aggregate : Option Aggregate
  warnings : List String
deriving DecidableEq, Repr

/-- Contents of the figure directory `figures/<id>/` after generation: the
ordered iteration records (each `iter_<n>/` with its critique) and the
optional `final/` artifact set. -/
structure FigureDirData where
  iters : List IterRecord
  final : Option Candidate
deriving DecidableEq, Repr

/-- A run directory, field per fixed artifact name (§6 layout).  `none`
means the file is absent; booleans model opaque text files whose content the
core never compares. -/
structure RunDir where
  runJson : Option RunMeta
  planJson : Option (List PlanDict)
  sectionsJson : Option (List (String × PaperSection))
  styleRefsJson : Option String
  figures : Option (List (String × FigureDirData))
  captionsTxt : Option String
  traceabilityJson : Option (List TraceRecord)
  inspectJson : Option InspectSummary
  docsDriftJson : Option DocsReport
  archJson : Option ArchReport
  reproJson : Option ReproReport
  promptsPlanPresent : Bool
  promptsCritiquePresent : Bool
deriving DecidableEq, Repr

/-- The empty run directory (for partially-written runs nothing has been
persisted yet). -/
def emptyRunDir : RunDir :=
  { runJson := none, planJson := none, sectionsJson := none, styleRefsJson := none
    figures := none, captionsTxt := none, traceabilityJson := none, inspectJson := none
    docsDriftJson := none, archJson := none, reproJson := none
    promptsPlanPresent := false, promptsCritiquePresent := false }

/-- Insert into a list sorted ascending by the string key `key`. -/
def insertSortedBy {α : Type} (key : α → String) (x : α) : List α → List α
  | [] => [x]
  | y :: ys => if key x < key y then x :: y :: ys else y :: insertSortedBy key x ys

/-- Sort ascending by the string key `key` (model of Python `sorted`). -/
def sortedByKey {α : Type} (key : α → String) : List α → List α
  | [] => []
  | x :: xs => insertSortedBy key x (sortedByKey key xs)

/-- Per-figure summary dict of `Orchestrator.inspect` (orchestrator.py lines
542-620) for the directory `figures/<fid>` holding `fd`. -/
def figureSummaryOf (plan_by_id : List (String × PlanDict)) (runMax : Nat)
    (fid : String) (fd : FigureDirData) : FigureSummary :=
  let iterReports := fd.iters
  let lastRep := iterReports.getLast?
  let accepted := match lastRep with
    | some r => r.report.passed
    | none => false
  let planEntry := dictGet plan_by_id fid
  let counts :=
    match fd.final with
    | some c =>
      let fromMeta := c.element_metadata.length
      let traceElems := c.trace.elements
      let total := if fromMeta == 0 then traceElems.length else fromMeta
      let traced := (traceElems.filter (fun (e : ElementTrace) => !e.source_spans.isEmpty)).length
      (total, traced)
    | none => (0, 0)
  let coverage : Option ℚ :=
    if counts.1 ≠ 0 then some ((counts.2 : ℚ) / (counts.1 : ℚ)) else none
  { figure_id := fid
    title := match planEntry with
      | some p => p.title
      | none => fid
    kind := match planEntry with
      | some p => p.kind
      | none => "unknown"
    template_id := match planEntry with
      | some p => p.template_id
      | none => ""
    iterations_attempted := iterReports.length
    max_iterations_hit :=
      !iterReports.isEmpty && decide (runMax ≤ iterReports.length) && !accepted
    accepted := accepted
    final_score := lastRep.map (·.report.score)
    final_passed := lastRep.map (·.report.passed)
    failed_dimensions := match lastRep with
      | some r => r.report.failed_dimensions
      | none => []
    issues := match lastRep with
      | some r => r.report.issues
      | none => []
    recommendations := match lastRep with
      | some r => r.report.recommendations
      | none => []
    total_elements := counts.1
    traced_elements := counts.2
    coverage := coverage
    iteration_history := iterReports.map
      (fun r => (r.iteration, r.report.score, r.report.passed, r.report.failed_dimensions))
    final_svg := fd.final.map (·.svg) }

/-- The four view filters of `Orchestrator.inspect` (orchestrator.py lines
622-638), applied in source order: figure-id, failures-only, minimum score,
failed-dimension name. -/
def applyInspectFilters (figure_id : Option String) (failures_only : Bool)
    (min_score : Option ℚ) (failed_dimension : Option String)
    (items : List FigureSummary) : List FigureSummary :=
  let items := match figure_id with
    | some f => items.filter (fun i => i.figure_id == f)
    | none => items
  let items :=
    if failures_only then items.filter (fun i => !(i.final_passed == some true)) else items
  let items := match min_score with
    | some m => items.filter (fun i =>
        match i.final_score with
        | some s => decide (m ≤ s)
        | none => false)
    | none => items
  match failed_dimension with
  | some fdim =>
    let target := pyLower (pyStrip fdim)
    items.filter (fun i => i.failed_dimensions.any (fun (d : String) => pyLower d == target))
  | none => items

/-- Aggregate totals over the filtered figure summaries (orchestrator.py
lines 641-657). -/
def aggregateOf (items : List FigureSummary) : Aggregate :=
  let acceptedCount := (items.filter (fun i => i.final_passed == some true)).length
  let totalFigures := items.length
  let finalScores := items.filterMap (·.final_score)
  let coverageValues := items.filterMap (·.coverage)
  { total_figures := totalFigures
    accepted_count := acceptedCount
    failed_count := totalFigures - acceptedCount
    avg_final_score :=
      if finalScores.isEmpty then none
      else some (finalScores.sum / (finalScores.length : ℚ))
    avg_traceability_coverage :=
      if coverageValues.isEmpty then none
      else some (coverageValues.sum / (coverageValues.length : ℚ))
    max_iterations_hit := (items.filter (·.max_iterations_hit)).map (·.figure_id) }

/-- `Orchestrator.inspect` (orchestrator.py lines 497-659): recompute the run
summary from persisted artifacts.  `selfMax` is the orchestrator's own
`max_iterations`, used only when `run.json` is absent; `aggregate = none`
models the early return (empty aggregate dict) when the figures directory is
missing.  Missing-critique warnings cannot arise in the model because every
modelled iteration directory holds its critique file. -/
def inspectRun (selfMax : Nat) (run_id : String) (rd : RunDir)
    (failures_only : Bool) (figure_id : Option String)
    (min_score : Option ℚ) (failed_dimension : Option String) : InspectSummary :=
  let metadata := rd.runJson
  let warnings0 : List String :=
    if metadata.isSome then [] else ["Missing run metadata: run.json"]
  let runMax := match metadata with
    | some m => m.max_iterations
    | none => selfMax
  let planState :=
    match rd.planJson with
    | some plan => (plan.length, plan.map (fun (d : PlanDict) => (d.figure_id, d)), warnings0)
    | none => (0, ([] : List (String × PlanDict)), warnings0 ++ ["Missing plan: plan.json"])
  match rd.figures with
  | none =>
    { run_id := run_id, metadata := metadata, plan_count := planState.1
      figures := [], aggregate := none
      warnings := planState.2.2 ++ ["Missing figures directory."] }
  | some figdirs =>
    let summaries :=
      (sortedByKey Prod.fst figdirs).map
        (fun p => figureSummaryOf planState.2.1 runMax p.1 p.2)
    let filtered :=
      applyInspectFilters figure_id failures_only min_score failed_dimension summaries
    { run_id := run_id, metadata := metadata, plan_count := planState.1
      figures := filtered, aggregate := some (aggregateOf filtered)
      warnings := planState.2.2 }

/-- SEVERITY_ORDER.get with default `dflt`
(architecture_critic.py lines 13-18). -/
def sevRank (dflt : Nat) (s : String) : Nat :=
  if s == "info" then 0
  else if s == "minor" then 1
  else if s == "major" then 2
  else if s == "critical" then 3
  else dflt

/-- ArchitectureCriticAgent._severity_name: first severity name whose rank
equals `v` in dict order, else "info". -/
def sevName (v : Nat) : String :=
  if v == 0 then "info"
  else if v == 1 then "minor"
  else if v == 2 then "major"
  else if v == 3 then "critical"
  else "info"

/-- ArchitectureCriticAgent.critique (architecture_critic.py lines 25-122),
evaluating the rule checks against the run directory artifacts. -/
def archCritique (run_id : String) (rd : RunDir) (block_severity : String) : ArchReport :=
  let inspectFindings : List ArchFinding :=
    match rd.inspectJson with
    | none =>
      [{ finding_id := "missing_inspect", severity := "major"
         title := "Missing inspect summary"
         description := "Run is missing inspect.json, limiting architecture observability."
         evidence := "inspect.json"
         suggestion := "Regenerate inspect summary via pipeline finalization or `paperfig inspect`." }]
    | some ins =>
      let failedCount := match ins.aggregate with
        | some a => a.failed_count
        | none => 0
      (if 0 < failedCount then
        [{ finding_id := "failed_figures", severity := "major"
           title := "Failed figures present"
           description := "At least one figure did not pass final critique."
           evidence := "failed_count=" ++ toString failedCount
           suggestion := "Review failed figures and rerun with improved prompts/templates." }]
      else []) ++
      (match ins.aggregate with
       | some a =>
         match a.avg_traceability_coverage with
         | some cov =>
           if cov < 0.8 then
             [{ finding_id := "traceability_coverage_low", severity := "major"
                title := "Low traceability coverage"
                description := "Average traceability coverage is below recommended threshold."
                evidence := "avg_traceability_coverage=" ++ toString cov
                suggestion := "Ensure all figure elements include source span mappings." }]
           else []
         | none => []
       | none => [])
  let planFindings : List ArchFinding :=
    match rd.planJson with
    | none =>
      [{ finding_id := "missing_plan", severity := "critical"
         title := "Missing plan artifact"
         description := "Run is missing plan.json."
         evidence := "plan.json"
         suggestion := "Investigate planner stage and regenerate run artifacts." }]
    | some plan =>
      if plan.isEmpty then
        [{ finding_id := "empty_plan", severity := "critical"
           title := "Empty figure plan"
           description := "Planner generated no figures for this run."
           evidence := "plan.json contains 0 entries"
           suggestion := "Review section extraction and template trigger rules." }]
      else []
  let docsFindings : List ArchFinding :=
    if rd.docsDriftJson.isSome then []
    else
      [{ finding_id := "missing_docs_drift_report", severity := "minor"
         title := "Missing docs drift report"
         description := "No docs_drift_report.json was found for this run."
         evidence := "docs_drift_report.json"
         suggestion := "Enable docs check in the generation finalization stage." }]
  let findings := inspectFindings ++ planFindings ++ docsFindings
  let maxSeen := (findings.map (fun f => sevRank 0 f.severity)).foldl max 0
  let blocked := decide (sevRank 3 block_severity ≤ maxSeen)
  let summary :=
    if findings.isEmpty then "No architecture findings."
    else toString findings.length ++ " finding(s); highest severity=" ++ sevName maxSeen
  { run_id := run_id, block_severity := block_severity
    findings := findings, blocked := blocked, summary := summary }

/-- `_artifact_check` (reproducibility.py lines 14-25). -/
def artifactCheck (relative_path : String) (required present : Bool) : ReproCheck :=
  { check_id := "artifact_" ++ pyReplace relative_path "/" "_"
    description := "Artifact exists: " ++ relative_path
    required := required
    passed := present
    severity := if required then "major" else "minor"
    message := if present then "present" else "missing" }

/-- `run_reproducibility_audit` (reproducibility.py lines 35-127).  The
`seed` key is present in `run.json` exactly when the file exists, because
`_write_run_metadata` always writes it; `expected_config_hash` falsy (None or
empty) skips the hash check. -/
def reproAudit (run_id : String) (rd : RunDir) (mode : String)
    (expected_config_hash : Option String) : ReproReport :=
  let hasRunJson := rd.runJson.isSome
  let runJsonCheck : ReproCheck :=
    { check_id := "run_json_present"
      description := "Run metadata file exists"
      required := true
      passed := hasRunJson
      severity := "critical"
      message := if hasRunJson then "present" else "missing" }
  let artifactChecks : List ReproCheck :=
    [artifactCheck "plan.json" true rd.planJson.isSome,
     artifactCheck "sections.json" true rd.sectionsJson.isSome,
     artifactCheck "traceability.json" true rd.traceabilityJson.isSome,
     artifactCheck "inspect.json" true rd.inspectJson.isSome,
     artifactCheck "docs_drift_report.json" true rd.docsDriftJson.isSome,
     artifactCheck "architecture_critique.json" true rd.archJson.isSome,
     artifactCheck "prompts/plan_figure.txt" true rd.promptsPlanPresent,
     artifactCheck "prompts/critique_figure.txt" true rd.promptsCritiquePresent]
  let provenanceOk := match rd.runJson with
    | some m => m.paper_path != "" && m.created_at != ""
    | none => false
  let provenanceCheck : ReproCheck :=
    { check_id := "provenance_metadata"
      description := "Run metadata captures provenance fields"
      required := true
      passed := provenanceOk
      severity := "major"
      message := if provenanceOk then "ok" else "missing_fields" }
  let seedCheck : ReproCheck :=
    { check_id := "deterministic_seed_declared"
      description := "Run metadata declares a deterministic seed"
      required := false
      passed := hasRunJson
      severity := "minor"
      message := if hasRunJson then "seed_present" else "seed_missing" }
  let hashChecks : List ReproCheck :=
    match expected_config_hash with
    | some expected =>
      if expected != "" then
        let runHash := match rd.runJson with
          | some m => m.config_hash
          | none => ""
        [{ check_id := "config_hash_match"
           description := "Run metadata config hash matches expected hash"
           required := true
           passed := runHash == expected
           severity := "major"
           message := if runHash == expected then "match" else "mismatch" }]
      else []
    | none => []
  let checks := runJsonCheck :: artifactChecks ++ [provenanceCheck, seedCheck] ++ hashChecks
  let requiredFailed := checks.filter (fun c => c.required && !c.passed)
  let passed := requiredFailed.isEmpty
  let summary :=
    if passed then "Reproducibility checks passed."
    else toString requiredFailed.length ++ " required reproducibility check(s) failed."
  { run_id := run_id, mode := mode, checks := checks, passed := passed, summary := summary }

/-- Orchestrator configuration state set by `Orchestrator.__init__`
(orchestrator.py lines 29-69), after defaults and `paperfig.yaml` merging. -/
structure PipeConfig where
  max_iterations : Nat
  quality_threshold : ℚ
  dimension_threshold : ℚ
  template_pack : String
  arch_critique_mode : String
  arch_critique_block_severity : String
  repro_audit_mode : String
  config_fingerprint : String
  docs_auto_regen_on_generate : Bool

/-- The fatal errors `generate`/`rerun` can raise (spec §7 taxonomy; the
sources raise FileNotFoundError / RuntimeError with distinguishing
messages). -/
inductive PipeError where
  | runNotFound
  | missingRunMeta
  | paperNotFound
  | invalidPlanJson
  | emptyPlan
  | docsDriftDetected
  | archCritiqueBlocked
  | reproAuditFailed
deriving DecidableEq, Repr

/-- External collaborators and environment outcomes consumed by one
generation: the Figure Generator (per plan entry, iteration index and
feedback), the docs-drift checker (`check_only ↦ report`), the fresh run id
and clock, and whether the source paper path exists (rerun's check). -/
structure PipeOracles where
  gen : FigurePlan → Nat → Option Feedback → Candidate
  docsCheck : Bool → DocsReport
  run_id : String
  created_at : String
  styleRefs : String
  paperExists : Bool

/-- Create-or-reuse of `figures/<id>/` plus overwrite of its `iter_*` and
`final/` contents (mkdir with exist_ok followed by copies). -/
def assocUpdate (l : List (String × FigureDirData)) (k : String) (v : FigureDirData) :
    List (String × FigureDirData) :=
  if l.any (fun p => p.1 == k) then
    l.map (fun p => if p.1 == k then (k, v) else p)
  else
    l ++ [(k, v)]

/-- The per-figure loop of `_execute_generation` (orchestrator.py lines
231-306) over the whole plan, accumulating figure directories, caption lines
and final traceability records in plan order. -/
def processPlan (cfg : PipeConfig) (orc : PipeOracles) (paper : PaperContent) :
    List FigurePlan → List (String × FigureDirData) → List String → List TraceRecord →
    List (String × FigureDirData) × List String × List TraceRecord
  | [], figs, caps, trs => (figs, caps, trs)
  | fp :: rest, figs, caps, trs =>
    let crit := fun (c : Candidate) =>
      criticCritique cfg.quality_threshold cfg.dimension_threshold c.svg fp paper
    let outcome := figureOutcome (orc.gen fp) crit cfg.max_iterations
    let figs := assocUpdate figs fp.figure_id ⟨outcome.iters, outcome.final⟩
    let caps := caps ++ [fp.figure_id ++ ": " ++ fp.title ++ " - " ++ fp.justification]
    let trs := match outcome.final with
      | some c => trs ++ [c.trace]
      | none => trs
    processPlan cfg orc paper rest figs caps trs

/-- Run the reproducibility audit stage of `_execute_generation`
(orchestrator.py lines 351-358, via `Orchestrator.audit`): persist the
report and fail the run exactly when the configured mode is "hard" and the
report did not pass. -/
def finishAudit (cfg : PipeConfig) (run_id : String) (rd : RunDir) :
    RunDir × Except PipeError String :=
  let rep := reproAudit run_id rd cfg.repro_audit_mode (some cfg.config_fingerprint)
  let rd := {rd with reproJson := some rep}
  if cfg.repro_audit_mode == "hard" && !rep.passed then
    (rd, Except.error PipeError.reproAuditFailed)
  else
    (rd, Except.ok run_id)

/-- The writes of `Orchestrator._execute_generation` up to and including the
aggregated traceability file (orchestrator.py lines 199-313): metadata,
sections, plan, prompts, style refs, the per-figure loop, captions and
traceability — the run directory as it stands when the inspect snapshot is
computed. -/
def execLoopState (cfg : PipeConfig) (orc : PipeOracles) (paper : PaperContent)
    (plan : List FigurePlan) (meta_overrides : Option (String × Bool)) : RunDir :=
  let run_id := orc.run_id
  let meta : RunMeta :=
    { run_id := run_id
      paper_path := paper.source_path
      created_at := orc.created_at
      max_iterations := cfg.max_iterations
      quality_threshold := cfg.quality_threshold
      dimension_threshold := cfg.dimension_threshold
      template_pack := cfg.template_pack
      arch_critique_mode := cfg.arch_critique_mode
      arch_critique_block_severity := cfg.arch_critique_block_severity
      repro_audit_mode := cfg.repro_audit_mode
      config_hash := cfg.config_fingerprint
      rerun_of := meta_overrides.map (·.1)
      reused_plan := (meta_overrides.map (·.2)).getD false }
  let loopOut := processPlan cfg orc paper plan [] [] []
  { runJson := some meta
    planJson := some (plan.map planToDict)
    sectionsJson := some paper.sections
    styleRefsJson := some orc.styleRefs
    figures := some loopOut.1
    captionsTxt := some (String.intercalate "\n" loopOut.2.1)
    traceabilityJson := some loopOut.2.2
    inspectJson := none
    docsDriftJson := none
    archJson := none
    reproJson := none
    promptsPlanPresent := true
    promptsCritiquePresent := true }

/-- The run directory after the inspect snapshot and the docs-drift report
have additionally been persisted (orchestrator.py lines 316-321): the state
every finalization gate of lines 327-358 runs against. -/
def execPreGateState (cfg : PipeConfig) (orc : PipeOracles) (paper : PaperContent)
    (plan : List FigurePlan) (meta_overrides : Option (String × Bool)) : RunDir :=
  let rd := execLoopState cfg orc paper plan meta_overrides
  let snapshot := inspectRun cfg.max_iterations orc.run_id rd false none none none
  let rd := {rd with inspectJson := some snapshot}
  let docsReport := orc.docsCheck (!cfg.docs_auto_regen_on_generate)
  {rd with docsDriftJson := some docsReport}

/-- `Orchestrator._execute_generation` (orchestrator.py lines 199-364): the
persisted state of `execPreGateState`, then the finalization gates in fixed
order — docs drift (fatal when detected), inline architecture critique
(fatal when blocked), reproducibility audit (fatal only in hard mode).
Returns the run directory contents alongside the run id or the fatal
error. -/
def execGeneration (cfg : PipeConfig) (orc : PipeOracles) (paper : PaperContent)
    (plan : List FigurePlan) (meta_overrides : Option (String × Bool)) :
    RunDir × Except PipeError String :=
  let run_id := orc.run_id
  let rd := execPreGateState cfg orc paper plan meta_overrides
  if (orc.docsCheck (!cfg.docs_auto_regen_on_generate)).drift_detected then
    (rd, Except.error PipeError.docsDriftDetected)
  else if cfg.arch_critique_mode == "inline" then
    let archReport := archCritique run_id rd cfg.arch_critique_block_severity
    let rd := {rd with archJson := some archReport}
    if archReport.blocked then
      (rd, Except.error PipeError.archCritiqueBlocked)
    else
      finishAudit cfg run_id rd
  else
    finishAudit cfg run_id rd

/-- `Orchestrator.generate` (orchestrator.py lines 83-98): parse the paper,
take the plan override verbatim when given, else derive a plan via the
planner, then execute generation. -/
def generateOp (cfg : PipeConfig) (orc : PipeOracles) (paper : PaperContent)
    (planner : PaperContent → List FigurePlan)
    (plan_override : Option (List FigurePlan)) (meta_overrides : Option (String × Bool)) :
    RunDir × Except PipeError String :=
  let plan := match plan_override with
    | some p => p
    | none => planner paper
  execGeneration cfg orc paper plan meta_overrides

/-- `Orchestrator.rerun` (orchestrator.py lines 100-140): load the source
run's metadata and persisted plan, reject a missing/invalid/empty plan,
rebuild an orchestrator from the recorded parameters and replay the generate
pipeline with the persisted plan as plan override, tagging the new metadata
with `rerun_of`/`reused_plan`.  `srcExists` models the run-directory
existence check; `orc.paperExists` the source paper path check. -/
def rerunOp (cfg : PipeConfig) (orc : PipeOracles) (paper : PaperContent)
    (planner : PaperContent → List FigurePlan)
    (srcExists : Bool) (src : RunDir) (source_run_id : String) :
    Option RunDir × Except PipeError String :=
  if !srcExists then
    (none, Except.error PipeError.runNotFound)
  else
    match src.runJson with
    | none => (none, Except.error PipeError.missingRunMeta)
    | some meta =>
      if !orc.paperExists then
        (none, Except.error PipeError.paperNotFound)
      else
        match src.planJson with
        | none => (none, Except.error PipeError.invalidPlanJson)
        | some planDicts =>
          let plan := planDicts.map planFromDict
          if plan.isEmpty then
            (none, Except.error PipeError.emptyPlan)
          else
            let replayCfg : PipeConfig :=
              { cfg with
                  max_iterations := meta.max_iterations
                  quality_threshold := meta.quality_threshold
                  dimension_threshold := meta.dimension_threshold
                  template_pack := meta.template_pack
                  arch_critique_mode := meta.arch_critique_mode
                  arch_critique_block_severity := meta.arch_critique_block_severity
                  repro_audit_mode := meta.repro_audit_mode }
            let out := generateOp replayCfg orc paper planner (some plan)
              (some (source_run_id, true))
            (some out.1, out.2)

/-- `Orchestrator._load_or_build_inspect` (orchestrator.py lines 792-801),
value part: the snapshot diff will consume for this run. -/
def loadOrBuildInspectVal (selfMax : Nat) (run_id : String) (rd : RunDir) : InspectSummary :=
  match rd.inspectJson with
  | some i => i
  | none => inspectRun selfMax run_id rd false none none none

/-- `Orchestrator._load_or_build_inspect`, state part: the run directory
after the call — a freshly built snapshot is persisted as `inspect.json`. -/
def loadOrBuildInspectState (selfMax : Nat) (run_id : String) (rd : RunDir) : RunDir :=
  match rd.inspectJson with
  | some _ => rd
  | none => {rd with inspectJson := some (inspectRun selfMax run_id rd false none none none)}

/-- `Orchestrator._delta` (orchestrator.py lines 869-873): None unless both
sides are numeric. -/
def deltaOpt (left right : Option ℚ) : Option ℚ :=
  match left, right with
  | some x, some y => some (y - x)
  | _, _ => none

/-- `aggregate.get("accepted_count")` on an inspect snapshot. -/
def aggAccepted (i : InspectSummary) : Option ℚ :=
  i.aggregate.map (fun a => (a.accepted_count : ℚ))

/-- `aggregate.get("avg_final_score")` on an inspect snapshot. -/
def aggAvgScore (i : InspectSummary) : Option ℚ :=
  i.aggregate.bind (·.avg_final_score)

/-- `aggregate.get("avg_traceability_coverage")` on an inspect snapshot. -/
def aggAvgCov (i : InspectSummary) : Option ℚ :=
  i.aggregate.bind (·.avg_traceability_coverage)

/-- Deduplicate a string list (model of collecting the ids into a Python
set; the set is sorted immediately afterwards, so order is irrelevant). -/
def dedupStr : List String → List String
  | [] => []
  | x :: xs => x :: (dedupStr xs).filter (fun y => y != x)

/-- `Orchestrator._diff_figures` (orchestrator.py lines 803-852): classify
each figure id as added/removed/modified; a figure with equal final score,
equal pass state and equal final-SVG hash is unchanged and omitted.
`final_svg` holds the file content, which models its SHA-256. -/
def diffFigures (i1 i2 : InspectSummary) : List (String × String) :=
  let by1 := i1.figures.map (fun f => (f.figure_id, f))
  let by2 := i2.figures.map (fun f => (f.figure_id, f))
  let allIds := sortedByKey id (dedupStr (by1.map Prod.fst ++ by2.map Prod.fst))
  allIds.filterMap (fun fid =>
    match dictGet by1 fid, dictGet by2 fid with
    | none, _ => some (fid, "added_in_run_2")
    | some _, none => some (fid, "removed_in_run_2")
    | some f1, some f2 =>
      let same := decide (f1.final_score = f2.final_score)
        && decide (f1.final_passed = f2.final_passed)
        && decide (f1.final_svg = f2.final_svg)
      if same then none else some (fid, "modified"))

/-- One artifact-name comparison inside `_diff_json_artifacts`: a presence
mismatch counts as changed; two present files are changed when their
serialized contents differ (serialization of model values is injective). -/
def changedArtifact {α : Type} [DecidableEq α] (name : String) (a b : Option α) : List String :=
  match a, b with
  | some x, some y => if x = y then [] else [name]
  | none, none => []
  | _, _ => [name]

/-- `Orchestrator._diff_json_artifacts` (orchestrator.py lines 854-867) over
the fixed top-level `*.json` artifact names, in sorted order; a name absent
from both directories is skipped either way. -/
def diffJsonArtifacts (rd1 rd2 : RunDir) : List String :=
  changedArtifact "architecture_critique.json" rd1.archJson rd2.archJson ++
  changedArtifact "docs_drift_report.json" rd1.docsDriftJson rd2.docsDriftJson ++
  changedArtifact "inspect.json" rd1.inspectJson rd2.inspectJson ++
  changedArtifact "plan.json" rd1.planJson rd2.planJson ++
  changedArtifact "repro_audit.json" rd1.reproJson rd2.reproJson ++
  changedArtifact "run.json" rd1.runJson rd2.runJson ++
  changedArtifact "sections.json" rd1.sectionsJson rd2.sectionsJson ++
  changedArtifact "style_refs.json" rd1.styleRefsJson rd2.styleRefsJson ++
  changedArtifact "traceability.json" rd1.traceabilityJson rd2.traceabilityJson

/-- The diff report persisted as `diff.json` (orchestrator.py lines
183-195); timestamps and the diff-directory path are clock/path strings the
core never reads back and are omitted. -/
structure DiffReport where
  run_id_1 : String
  run_id_2 : String
  accepted_count_delta : Option ℚ
  avg_final_score_delta : Option ℚ
  avg_traceability_coverage_delta : Option ℚ
  changed_figures : List (String × String)
  changed_artifacts : List String
  changed_figure_count : Nat
  changed_artifact_count : Nat
deriving DecidableEq, Repr

/-- Assemble the diff report (orchestrator.py lines 155-195) from the two
snapshots and the two run directories as they stand when the artifact
comparison runs. -/
def diffReportOf (rid1 rid2 : String) (i1 i2 : InspectSummary) (rd1 rd2 : RunDir) : DiffReport :=
  let cf := diffFigures i1 i2
  let ca := diffJsonArtifacts rd1 rd2
  { run_id_1 := rid1
    run_id_2 := rid2
    accepted_count_delta := deltaOpt (aggAccepted i1) (aggAccepted i2)
    avg_final_score_delta := deltaOpt (aggAvgScore i1) (aggAvgScore i2)
    avg_traceability_coverage_delta := deltaOpt (aggAvgCov i1) (aggAvgCov i2)
    changed_figures := cf
    changed_artifacts := ca
    changed_figure_count := cf.length
    changed_artifact_count := ca.length }

/-- `Orchestrator.diff` (orchestrator.py lines 142-197) on two distinct run
directories: load or lazily build-and-persist each side's snapshot, then
compute the report; the report itself is written under a fresh directory in
`runs/diffs/`, outside both run directories.  Returns the report and the two
run directories as left behind. -/
def diffOp (selfMax : Nat) (rid1 rid2 : String) (rd1 rd2 : RunDir) :
    DiffReport × RunDir × RunDir :=
  let i1 := loadOrBuildInspectVal selfMax rid1 rd1
  let rd1 := loadOrBuildInspectState selfMax rid1 rd1
  let i2 := loadOrBuildInspectVal selfMax rid2 rd2
  let rd2 := loadOrBuildInspectState selfMax rid2 rd2
  (diffReportOf rid1 rid2 i1 i2 rd1 rd2, rd1, rd2)

/-- `Orchestrator.diff` with both run ids naming the same directory
(`diff(r, r)`): the second load-or-build runs against the directory already
holding the snapshot the first one persisted, and the artifact comparison
compares the directory with itself. -/
def diffSelf (selfMax : Nat) (rid : String) (rd : RunDir) : DiffReport × RunDir :=
  let i1 := loadOrBuildInspectVal selfMax rid rd
  let rd := loadOrBuildInspectState selfMax rid rd
  let i2 := loadOrBuildInspectVal selfMax rid rd
  let rd := loadOrBuildInspectState selfMax rid rd
  (diffReportOf rid rid i1 i2 rd rd, rd)

/-- Parameter names accepted by `ArchitectureCriticAgent.__init__`
(architecture_critic.py line 22): none beyond `self`. -/
def archCriticInitParamNames : List String := []

/-- Parameter names accepted by `ArchitectureCriticAgent.critique`
(architecture_critic.py line 25): `run_dir` and `block_severity` only. -/
def archCriticCritiqueParamNames : List String := ["run_dir", "block_severity"]

/-- Python keyword-argument binding: calling a function whose keyword
parameters are `params` with the keyword arguments `kwargs` raises TypeError
at the first keyword the signature does not accept. -/
def pyBindKwargs (params kwargs : List String) : Except String Unit :=
  match kwargs.find? (fun k => !params.contains k) with
  | some k => Except.error k
  | none => Except.ok ()

/-- Keyword arguments `Orchestrator.__init__` passes to
`ArchitectureCriticAgent(...)` (orchestrator.py lines 77-81). -/
def orchestratorInitArchKwargs : List String :=
  ["repo_root", "template_dir", "default_template_pack"]

/-- Keyword arguments `Orchestrator.critique_architecture` passes to
`self.architecture_critic.critique(...)` (orchestrator.py lines 393-397). -/
def critiqueArchitectureCallKwargs : List String :=
  ["run_dir", "block_severity", "enabled_rules"]

/-- Constructor arguments of `Orchestrator.__init__`
(orchestrator.py lines 29-40). -/
structure OrchInitArgs where
  run_root : String
  max_iterations : Nat
  quality_threshold : ℚ
  dimension_threshold : ℚ
  template_pack : Option String
  arch_critique_mode : Option String
  arch_critique_block_severity : Option String
  repro_audit_mode : Option String
  config_path : String
deriving DecidableEq, Repr

/-- `Orchestrator.__init__` (orchestrator.py lines 29-81): the config,
prompt and template loads of lines 41-76 succeed against the shipped
repository files and construct the planner, generator and critic; the final
statement binds `ArchitectureCriticAgent.__init__` against the keyword
arguments of lines 77-81, so construction returns that binding's outcome. -/
def orchestratorInit (_args : OrchInitArgs) : Except String Unit :=
  match pyBindKwargs archCriticInitParamNames orchestratorInitArchKwargs with
  | Except.error k =>
    Except.error ("TypeError: ArchitectureCriticAgent.__init__() got an unexpected keyword argument " ++ k)
  | Except.ok _ => Except.ok ()

/-- Concrete source span used by the worked examples. -/
def spanW : SourceSpan :=
  { sectionName := "system", spanStart := 0, spanEnd := 10, quote := "system" }

/-- Concrete parsed paper used by the worked examples. -/
def paperW : PaperContent :=
  { source_path := "paper.md"
    full_text := "The system has modules."
    sections := [("system", { name := "system", text := "The system has modules.", secStart := 0, secEnd := 23 })] }

/-- Concrete plan entry used by the worked examples. -/
def fpW : FigurePlan :=
  { figure_id := "fig-a", title := "System Overview", kind := "system_overview"
    order := 1, abstraction_level := "high", description := "System modules."
    justification := "System figure.", template_id := "", source_spans := [spanW] }

/-- An SVG the critic rejects (readability, conciseness and aesthetics all
score below 0.55). -/
def svgFailW : String := "x"

/-- An SVG the critic accepts for `fpW` (all four dimensions at least 0.55
and mean score 0.7875 at the default thresholds). -/
def svgPassW : String :=
  "<svg viewBox width height stroke fill font-family font-size><text<text<rect"

/-- Concrete traced element used by the worked examples. -/
def elemW : ElementTrace :=
  { element_id := "fig-a-summary", element_type := "group"
    label := "System Overview", source_spans := [spanW] }

/-- Candidate whose SVG the critic rejects. -/
def candFailW : Candidate :=
  { svg := svgFailW, element_metadata := [elemW]
    trace := { figure_id := "fig-a", elements := [elemW] } }

/-- Candidate whose SVG the critic accepts. -/
def candPassW : Candidate :=
  { svg := svgPassW, element_metadata := [elemW]
    trace := { figure_id := "fig-a", elements := [elemW] } }

/-- Per-figure generator returning the rejected candidate on iteration 1 and
the accepted candidate afterwards. -/
def genLoopW : Nat → Option Feedback → Candidate :=
  fun i _ => if i == 1 then candFailW else candPassW

/-- The orchestrator's critic specialized to `fpW`/`paperW` at the default
thresholds, as the per-figure loop invokes it. -/
def critW : Candidate → CritiqueReport :=
  fun c => criticCritique 0.75 0.55 c.svg fpW paperW

/-- Docs-drift checker reporting no drift. -/
def docsOkW : Bool → DocsReport := fun _ => { drift_detected := false, documents := [] }

/-- Docs-drift checker reporting drift. -/
def docsDriftW : Bool → DocsReport := fun _ => { drift_detected := true, documents := [] }

/-- Concrete collaborator bundle: fail-then-pass generator, no docs drift. -/
def orcW : PipeOracles :=
  { gen := fun _ i _ => if i == 1 then candFailW else candPassW
    docsCheck := docsOkW, run_id := "run-1", created_at := "t0"
    styleRefs := "style", paperExists := true }

/-- Collaborator bundle whose docs checker detects drift. -/
def orcDriftW : PipeOracles := { orcW with docsCheck := docsDriftW }

/-- Concrete configuration: three iterations, default thresholds,
architecture critique off, soft audit. -/
def cfgW : PipeConfig :=
  { max_iterations := 3, quality_threshold := 0.75, dimension_threshold := 0.55
    template_pack := "expanded_v1", arch_critique_mode := "off"
    arch_critique_block_severity := "critical", repro_audit_mode := "soft"
    config_fingerprint := "cfg-hash", docs_auto_regen_on_generate := true }

/-- `cfgW` with a zero iteration cap. -/
def cfgZeroW : PipeConfig := { cfgW with max_iterations := 0 }

/-- `cfgW` in hard audit mode (architecture critique stays off, so the
`architecture_critique.json` artifact check fails the audit). -/
def cfgHardW : PipeConfig := { cfgW with repro_audit_mode := "hard" }

/-- Concrete source-run metadata for the rerun example. -/
def metaW : RunMeta :=
  { run_id := "run-0", paper_path := "paper.md", created_at := "t0"
    max_iterations := 3, quality_threshold := 0.75, dimension_threshold := 0.55
    template_pack := "expanded_v1", arch_critique_mode := "off"
    arch_critique_block_severity := "critical", repro_audit_mode := "soft"
    config_hash := "cfg-hash", rerun_of := none, reused_plan := false }

/-- Concrete source run directory with a persisted one-entry plan. -/
def srcW : RunDir :=
  { emptyRunDir with runJson := some metaW, planJson := some [planToDict fpW] }

/-- A run generated from the empty plan (possible when no template matches):
its inspect aggregate has `avg_final_score = None`. -/
def emptyPlanRunW : RunDir := (execGeneration cfgW orcW paperW [] none).1

theorem mem_insertSortedBy {α : Type} (key : α → String) (x y : α) (l : List α) :
    y ∈ insertSortedBy key x l ↔ y = x ∨ y ∈ l := by
  induction l with
  | nil => simp [insertSortedBy]
  | cons z zs ih =>
    simp only [insertSortedBy]
    split
    · simp [List.mem_cons]
    · simp only [List.mem_cons, ih]
      tauto

theorem mem_sortedByKey {α : Type} (key : α → String) (y : α) (l : List α) :
    y ∈ sortedByKey key l ↔ y ∈ l := by
  induction l with
  | nil => simp [sortedByKey]
  | cons z zs ih => simp [sortedByKey, mem_insertSortedBy, ih]

theorem mem_dedupStr (y : String) (l : List String) : y ∈ dedupStr l ↔ y ∈ l := by
  induction l with
  | nil => simp [dedupStr]
  | cons x xs ih =>
    simp only [dedupStr, List.mem_cons, List.mem_filter, ih, bne_iff_ne, ne_eq]
    by_cases hyx : y = x <;> simp [hyx]

theorem dictGet_mem {α : Type} {l : List (String × α)} {k : String} {v : α}
    (h : dictGet l k = some v) : (k, v) ∈ l := by
  unfold dictGet at h
  cases hf : l.reverse.find? (fun p => p.1 == k) with
  | none => rw [hf] at h; simp at h
  | some p =>
    rw [hf] at h
    simp only [Option.map_some'] at h
    have hmem : p ∈ l := List.mem_reverse.mp (List.mem_of_find?_eq_some hf)
    have hkey : p.1 = k := by simpa using List.find?_some hf
    cases p with
    | mk a b =>
      simp only at hkey h
      obtain rfl : b = v := by injection h
      subst hkey
      exact hmem

theorem dictGet_isSome_of_mem_keys {α : Type} {l : List (String × α)} {k : String}
    (h : k ∈ l.map Prod.fst) : ∃ v, dictGet l k = some v := by
  unfold dictGet
  cases hf : l.reverse.find? (fun p => p.1 == k) with
  | some p => exact ⟨p.2, rfl⟩
  | none =>
    exfalso
    obtain ⟨p, hp, hpk⟩ := List.mem_map.mp h
    have := List.find?_eq_none.mp hf p (List.mem_reverse.mpr hp)
    simp [hpk] at this

/-- C2: constructing an Orchestrator always raises a TypeError before any
operation can run.  `Orchestrator.__init__` ends by instantiating
`ArchitectureCriticAgent` with the keyword arguments `repo_root`,
`template_dir` and `default_template_pack`, none of which its `__init__`
accepts, so construction fails for every argument tuple; independently,
`critique_architecture`'s call into `ArchitectureCriticAgent.critique`
passes the keyword `enabled_rules`, which that method's signature
(`run_dir`, `block_severity`) does not accept either, so the public
operations are unreachable through the constructor as written. -/
theorem C2_constructor_always_typeerror :
    (∀ a : OrchInitArgs,
      orchestratorInit a = Except.error
        "TypeError: ArchitectureCriticAgent.__init__() got an unexpected keyword argument repo_root") ∧
    pyBindKwargs archCriticCritiqueParamNames critiqueArchitectureCallKwargs =
      Except.error "enabled_rules" :=
  ⟨fun _ => rfl, rfl⟩

theorem criticIssues_no_invalid (dt : ℚ) (svg : String) (plan : FigurePlan)
    (paper : PaperContent) :
    ∀ s ∈ criticIssues dt svg plan paper,
      strContainsSub (pyLower s) "invalid" = false := by
  have h1 : strContainsSub (pyLower readabilityIssue) "invalid" = false := by decide
  have h2 : strContainsSub (pyLower faithfulnessIssue) "invalid" = false := by decide
  have h3 : strContainsSub (pyLower concisenessIssue) "invalid" = false := by decide
  have h4 : strContainsSub (pyLower aestheticsIssue) "invalid" = false := by decide
  intro s hs
  simp only [criticIssues, List.mem_append] at hs
  rcases hs with ((h | h) | h) | h <;> (split at h <;> simp_all)

/-- C10: the CritiqueReport returned by CriticAgent.critique has
`failed_dimensions` equal to exactly the set of quality-dimension names
scoring strictly below `dimension_threshold`, and `passed` is true iff the
computed score (the mean of the four dimension scores, compared before
rounding, as the source does) reaches `threshold` and no dimension failed:
the extra check for the word "invalid" in the issues is vacuous because no
generated issue string contains it. -/
theorem criticPassed_iff (th dt : ℚ) (svg : String) (plan : FigurePlan)
    (paper : PaperContent) :
    criticPassed th dt svg plan paper = true ↔
      (th ≤ criticScore svg plan paper ∧ criticFailedDims dt svg plan paper = []) := by
  have hany : ((criticIssues dt svg plan paper).any
      (fun issue => strContainsSub (pyLower issue) "invalid")) = false := by
    rw [List.any_eq_false]
    intro s hs
    simp [criticIssues_no_invalid dt svg plan paper s hs]
  unfold criticPassed
  rw [hany]
  simp [List.isEmpty_iff]

/-- C10: the CritiqueReport returned by CriticAgent.critique has
`failed_dimensions` equal to exactly the set of quality-dimension names
scoring strictly below `dimension_threshold`, and `passed` is true iff the
computed score (the mean of the four dimension scores, which the source
compares before rounding) reaches `threshold` and no dimension failed: the
extra check for the word "invalid" in the issues is vacuous because no
generated issue string contains it. -/
theorem C10_critique_passed_characterization (th dt : ℚ) (svg : String)
    (plan : FigurePlan) (paper : PaperContent) :
    (criticCritique th dt svg plan paper).failed_dimensions =
      ((scoreDimensions svg plan paper).filter (fun p => p.2 < dt)).map Prod.fst ∧
    (∀ d : String,
      d ∈ (criticCritique th dt svg plan paper).failed_dimensions ↔
        ∃ q : ℚ, (d, q) ∈ scoreDimensions svg plan paper ∧ q < dt) ∧
    ((criticCritique th dt svg plan paper).passed = true ↔
      (th ≤ criticScore svg plan paper ∧
        (criticCritique th dt svg plan paper).failed_dimensions = [])) ∧
    (∀ s ∈ (criticCritique th dt svg plan paper).issues,
      strContainsSub (pyLower s) "invalid" = false) := by
  refine ⟨rfl, ?_, criticPassed_iff th dt svg plan paper,
    criticIssues_no_invalid dt svg plan paper⟩
  intro d
  show d ∈ criticFailedDims dt svg plan paper ↔ _
  unfold criticFailedDims
  simp only [List.mem_map, List.mem_filter, decide_eq_true_eq]
  constructor
  · rintro ⟨⟨a, q⟩, ⟨hmem, hlt⟩, hfst⟩
    exact ⟨q, by simpa [← hfst] using hmem, hlt⟩
  · rintro ⟨q, hmem, hlt⟩
    exact ⟨(d, q), ⟨hmem, hlt⟩, rfl⟩

theorem runIters_succ (g : Nat → Option Feedback → Candidate)
    (c : Candidate → CritiqueReport) (s n : Nat) (fb : Option Feedback) :
    runIters g c s (n + 1) fb =
      (if (c (g s fb)).passed then
        ([{ iteration := s, feedback := fb, candidate := g s fb, report := c (g s fb) }], true)
      else
        ({ iteration := s, feedback := fb, candidate := g s fb, report := c (g s fb) } ::
            (runIters g c (s + 1) n (some (mkFeedback (c (g s fb))))).1,
          (runIters g c (s + 1) n (some (mkFeedback (c (g s fb))))).2)) := rfl


theorem runIters_succ_pos (g : Nat → Option Feedback → Candidate)
    (c : Candidate → CritiqueReport) (s n : Nat) (fb : Option Feedback)
    (h : (c (g s fb)).passed = true) :
    runIters g c s (n + 1) fb =
      ([{ iteration := s, feedback := fb, candidate := g s fb, report := c (g s fb) }], true) := by
  rw [runIters_succ, if_pos h]

theorem runIters_succ_neg (g : Nat → Option Feedback → Candidate)
    (c : Candidate → CritiqueReport) (s n : Nat) (fb : Option Feedback)
    (h : (c (g s fb)).passed = false) :
    runIters g c s (n + 1) fb =
      ({ iteration := s, feedback := fb, candidate := g s fb, report := c (g s fb) } ::
          (runIters g c (s + 1) n (some (mkFeedback (c (g s fb))))).1,
        (runIters g c (s + 1) n (some (mkFeedback (c (g s fb))))).2) := by
  rw [runIters_succ, if_neg]
  simp [h]

theorem runIters_length_le (g : Nat → Option Feedback → Candidate)
    (c : Candidate → CritiqueReport) :
    ∀ (n s : Nat) (fb : Option Feedback), (runIters g c s n fb).1.length ≤ n := by
  intro n
  induction n with
  | zero => intro s fb; simp [runIters]
  | succ n ih =>
    intro s fb
    cases hp : (c (g s fb)).passed
    · rw [runIters_succ_neg g c s n fb hp]
      simp only [List.length_cons]
      exact Nat.succ_le_succ (ih (s + 1) _)
    · rw [runIters_succ_pos g c s n fb hp]
      simp

theorem runIters_not_accepted_length (g : Nat → Option Feedback → Candidate)
    (c : Candidate → CritiqueReport) :
    ∀ (n s : Nat) (fb : Option Feedback), (runIters g c s n fb).2 = false →
      (runIters g c s n fb).1.length = n := by
  intro n
  induction n with
  | zero => intro s fb _; simp [runIters]
  | succ n ih =>
    intro s fb hacc
    cases hp : (c (g s fb)).passed
    · rw [runIters_succ_neg g c s n fb hp] at hacc ⊢
      simp only [List.length_cons]
      exact congrArg Nat.succ (ih (s + 1) _ hacc)
    · rw [runIters_succ_pos g c s n fb hp] at hacc
      simp at hacc

theorem runIters_ne_nil (g : Nat → Option Feedback → Candidate)
    (c : Candidate → CritiqueReport) (n s : Nat) (fb : Option Feedback) (h : 1 ≤ n) :
    (runIters g c s n fb).1 ≠ [] := by
  cases n with
  | zero => omega
  | succ n =>
    cases hp : (c (g s fb)).passed
    · rw [runIters_succ_neg g c s n fb hp]; simp
    · rw [runIters_succ_pos g c s n fb hp]; simp

theorem runIters_accepted_last (g : Nat → Option Feedback → Candidate)
    (c : Candidate → CritiqueReport) :
    ∀ (n s : Nat) (fb : Option Feedback), (runIters g c s n fb).2 = true →
      ∃ last, (runIters g c s n fb).1.getLast? = some last ∧ last.report.passed = true := by
  intro n
  induction n with
  | zero => intro s fb hacc; simp [runIters] at hacc
  | succ n ih =>
    intro s fb hacc
    cases hp : (c (g s fb)).passed
    · rw [runIters_succ_neg g c s n fb hp] at hacc ⊢
      obtain ⟨last, hl, hpass⟩ := ih (s + 1) _ hacc
      cases hr : (runIters g c (s + 1) n (some (mkFeedback (c (g s fb))))).1 with
      | nil => rw [hr] at hl; simp at hl
      | cons a as =>
        rw [hr] at hl
        show ∃ last, (_ :: a :: as).getLast? = some last ∧ _
        rw [List.getLast?_cons_cons]
        exact ⟨last, hl, hpass⟩
    · rw [runIters_succ_pos g c s n fb hp]
      exact ⟨{ iteration := s, feedback := fb, candidate := g s fb, report := c (g s fb) },
        by simp, hp⟩

theorem runIters_mem_passed (g : Nat → Option Feedback → Candidate)
    (c : Candidate → CritiqueReport) :
    ∀ (n s : Nat) (fb : Option Feedback) (r : IterRecord),
      r ∈ (runIters g c s n fb).1 → r.report.passed = true →
      (runIters g c s n fb).2 = true := by
  intro n
  induction n with
  | zero => intro s fb r hr _; simp [runIters] at hr
  | succ n ih =>
    intro s fb r hr hpass
    cases hp : (c (g s fb)).passed
    · rw [runIters_succ_neg g c s n fb hp] at hr ⊢
      simp only [List.mem_cons] at hr
      rcases hr with rfl | hr
      · rw [hpass] at hp; cases hp
      · exact ih (s + 1) _ r hr hpass
    · rw [runIters_succ_pos g c s n fb hp]

theorem runIters_get_iteration (g : Nat → Option Feedback → Candidate)
    (c : Candidate → CritiqueReport) :
    ∀ (n s : Nat) (fb : Option Feedback) (i : Nat)
      (h : i < (runIters g c s n fb).1.length),
      ((runIters g c s n fb).1.get ⟨i, h⟩).iteration = s + i := by
  intro n
  induction n with
  | zero => intro s fb i h; simp [runIters] at h
  | succ n ih =>
    intro s fb i h
    cases hp : (c (g s fb)).passed
    · rw [runIters_succ_neg g c s n fb hp] at h
      rw [List.get_of_eq (congrArg Prod.fst (runIters_succ_neg g c s n fb hp))]
      cases i with
      | zero => rfl
      | succ i =>
        show ((runIters g c (s + 1) n (some (mkFeedback (c (g s fb))))).1.get ⟨i, _⟩).iteration = _
        rw [ih (s + 1) _ i]
        omega
    · rw [runIters_succ_pos g c s n fb hp] at h
      rw [List.get_of_eq (congrArg Prod.fst (runIters_succ_pos g c s n fb hp))]
      simp only [List.length_singleton] at h
      have hi : i = 0 := by omega
      subst hi
      rfl

theorem runIters_get_feedback_zero (g : Nat → Option Feedback → Candidate)
    (c : Candidate → CritiqueReport) (n s : Nat) (fb : Option Feedback)
    (h : 0 < (runIters g c s n fb).1.length) :
    ((runIters g c s n fb).1.get ⟨0, h⟩).feedback = fb := by
  cases n with
  | zero => simp [runIters] at h
  | succ n =>
    cases hp : (c (g s fb)).passed
    · rw [List.get_of_eq (congrArg Prod.fst (runIters_succ_neg g c s n fb hp))]
      rfl
    · rw [List.get_of_eq (congrArg Prod.fst (runIters_succ_pos g c s n fb hp))]
      rfl

theorem runIters_feedback_chain (g : Nat → Option Feedback → Candidate)
    (c : Candidate → CritiqueReport) :
    ∀ (n s : Nat) (fb : Option Feedback) (i : Nat)
      (h : i + 1 < (runIters g c s n fb).1.length),
      ((runIters g c s n fb).1.get ⟨i + 1, h⟩).feedback =
        some (mkFeedback (((runIters g c s n fb).1.get ⟨i, Nat.lt_of_succ_lt h⟩).report)) := by
  intro n
  induction n with
  | zero => intro s fb i h; simp [runIters] at h
  | succ n ih =>
    intro s fb i h
    cases hp : (c (g s fb)).passed
    · have hL : (runIters g c s (n + 1) fb).1 =
          { iteration := s, feedback := fb, candidate := g s fb, report := c (g s fb) } ::
            (runIters g c (s + 1) n (some (mkFeedback (c (g s fb))))).1 :=
        congrArg Prod.fst (runIters_succ_neg g c s n fb hp)
      rw [List.get_of_eq hL, List.get_of_eq hL]
      cases i with
      | zero =>
        show ((runIters g c (s + 1) n (some (mkFeedback (c (g s fb))))).1.get ⟨0, _⟩).feedback = _
        rw [runIters_get_feedback_zero]
        rfl
      | succ i =>
        show ((runIters g c (s + 1) n (some (mkFeedback (c (g s fb))))).1.get ⟨i + 1, _⟩).feedback = _
        rw [ih (s + 1) _ i]
        rfl
    · rw [runIters_succ_pos g c s n fb hp] at h
      simp only [List.length_singleton] at h
      omega

/-- C6: in the per-figure loop the Figure Generator's feedback argument is
null on round 1, and on every later round it is exactly the previous round's
critique packaged as `{previous_score, issues, recommendations,
failed_dimensions}`; in particular, when the first critique fails dimension
D and a second round runs, the second generation call's feedback contains D
in `failed_dimensions`.  (`iters.get ⟨i, _⟩` is the round with 1-based
iteration index `i + 1`, as the third conjunct shows.) -/
theorem C6_feedback_threading (gen : Nat → Option Feedback → Candidate)
    (crit : Candidate → CritiqueReport) (m : Nat) :
    (∀ h0 : 0 < (figureOutcome gen crit m).iters.length,
      ((figureOutcome gen crit m).iters.get ⟨0, h0⟩).feedback = none) ∧
    (∀ (i : Nat) (h : i + 1 < (figureOutcome gen crit m).iters.length),
      ((figureOutcome gen crit m).iters.get ⟨i + 1, h⟩).feedback =
        some (mkFeedback (((figureOutcome gen crit m).iters.get
          ⟨i, Nat.lt_of_succ_lt h⟩).report))) ∧
    (∀ (i : Nat) (h : i < (figureOutcome gen crit m).iters.length),
      ((figureOutcome gen crit m).iters.get ⟨i, h⟩).iteration = i + 1) ∧
    (∀ (D : String) (h : 1 < (figureOutcome gen crit m).iters.length),
      D ∈ (((figureOutcome gen crit m).iters.get
          ⟨0, Nat.lt_of_succ_lt h⟩).report).failed_dimensions →
      ∃ fb, ((figureOutcome gen crit m).iters.get ⟨1, h⟩).feedback = some fb ∧
        D ∈ fb.failed_dimensions) := by
  refine ⟨?_, ?_, ?_, ?_⟩
  · intro h0
    exact runIters_get_feedback_zero gen crit m 1 none h0
  · intro i h
    exact runIters_feedback_chain gen crit m 1 none i h
  · intro i h
    exact (runIters_get_iteration gen crit m 1 none i h).trans (Nat.add_comm 1 i)
  · intro D h hD
    refine ⟨mkFeedback (((figureOutcome gen crit m).iters.get
      ⟨0, Nat.lt_of_succ_lt h⟩).report), ?_, ?_⟩
    · exact runIters_feedback_chain gen crit m 1 none 0 h
    · simpa [mkFeedback] using hD

set_option maxRecDepth 10000 in
/-- Witness for C6 at a concrete fail-then-pass generator: the first
critique fails "readability", and the second generation call's feedback
carries it. -/
theorem C6_feedback_threading_witness :
    ∃ fb, ((figureOutcome genLoopW critW 3).iters.get
        ⟨1, by with_unfolding_all decide⟩).feedback = some fb ∧
      "readability" ∈ fb.failed_dimensions :=
  (C6_feedback_threading genLoopW critW 3).2.2.2 "readability"
    (by with_unfolding_all decide) (by with_unfolding_all decide)

theorem mem_assocUpdate {l : List (String × FigureDirData)} {k : String}
    {v : FigureDirData} {p : String × FigureDirData}
    (h : p ∈ assocUpdate l k v) : p ∈ l ∨ p = (k, v) := by
  unfold assocUpdate at h
  split at h
  · obtain ⟨q, hq, hpq⟩ := List.mem_map.mp h
    by_cases hqk : (q.1 == k) = true
    · rw [if_pos hqk] at hpq
      right; exact hpq.symm
    · rw [if_neg hqk] at hpq
      left; exact hpq ▸ hq
  · rcases List.mem_append.mp h with h | h
    · left; exact h
    · right; simpa using h

theorem keys_assocUpdate_self (l : List (String × FigureDirData)) (k : String)
    (v : FigureDirData) :
    k ∈ (assocUpdate l k v).map Prod.fst := by
  unfold assocUpdate
  split
  · next hany =>
    obtain ⟨q, hq, hqk⟩ := List.any_eq_true.mp hany
    refine List.mem_map.mpr ⟨(k, v), ?_, rfl⟩
    refine List.mem_map.mpr ⟨q, hq, ?_⟩
    simp [hqk]
  · simp

theorem keys_assocUpdate_mono (l : List (String × FigureDirData)) (k : String)
    (v : FigureDirData) {k2 : String} (h : k2 ∈ l.map Prod.fst) :
    k2 ∈ (assocUpdate l k v).map Prod.fst := by
  obtain ⟨q, hq, rfl⟩ := List.mem_map.mp h
  by_cases hqk : (q.1 == k) = true
  · have hq1 : q.1 = k := by simpa using hqk
    rw [hq1]
    exact keys_assocUpdate_self l k v
  · unfold assocUpdate
    split
    · refine List.mem_map.mpr ⟨(if q.1 == k then (k, v) else q), ?_, ?_⟩
      · exact List.mem_map.mpr ⟨q, hq, rfl⟩
      · rw [if_neg hqk]
    · exact List.mem_map.mpr ⟨q, List.mem_append_left _ hq, rfl⟩

theorem processPlan_keys_mono (cfg : PipeConfig) (orc : PipeOracles) (paper : PaperContent) :
    ∀ (plan : List FigurePlan) (figs : List (String × FigureDirData))
      (caps : List String) (trs : List TraceRecord) (k : String),
      k ∈ figs.map Prod.fst →
      k ∈ ((processPlan cfg orc paper plan figs caps trs).1).map Prod.fst := by
  intro plan
  induction plan with
  | nil => intro figs caps trs k hk; exact hk
  | cons fp rest ih =>
    intro figs caps trs k hk
    exact ih _ _ _ k (keys_assocUpdate_mono _ _ _ hk)

theorem processPlan_keys (cfg : PipeConfig) (orc : PipeOracles) (paper : PaperContent) :
    ∀ (plan : List FigurePlan) (figs : List (String × FigureDirData))
      (caps : List String) (trs : List TraceRecord) (fp : FigurePlan), fp ∈ plan →
      fp.figure_id ∈ ((processPlan cfg orc paper plan figs caps trs).1).map Prod.fst := by
  intro plan
  induction plan with
  | nil => intro figs caps trs fp hfp; simp at hfp
  | cons fp1 rest ih =>
    intro figs caps trs fp hfp
    rcases List.mem_cons.mp hfp with rfl | hfp
    · exact processPlan_keys_mono cfg orc paper rest _ _ _ _ (keys_assocUpdate_self _ _ _)
    · exact ih _ _ _ fp hfp

theorem processPlan_entries_prop (cfg : PipeConfig) (orc : PipeOracles) (paper : PaperContent)
    (P : FigureDirData → Prop)
    (hP : ∀ fp : FigurePlan,
      P { iters := (figureOutcome (orc.gen fp)
            (fun c => criticCritique cfg.quality_threshold cfg.dimension_threshold c.svg fp paper)
            cfg.max_iterations).iters,
          final := (figureOutcome (orc.gen fp)
            (fun c => criticCritique cfg.quality_threshold cfg.dimension_threshold c.svg fp paper)
            cfg.max_iterations).final }) :
    ∀ (plan : List FigurePlan) (figs : List (String × FigureDirData))
      (caps : List String) (trs : List TraceRecord),
      (∀ p ∈ figs, P p.2) →
      ∀ p ∈ (processPlan cfg orc paper plan figs caps trs).1, P p.2 := by
  intro plan
  induction plan with
  | nil => intro figs caps trs hfigs p hp; exact hfigs p hp
  | cons fp rest ih =>
    intro figs caps trs hfigs p hp
    refine ih _ _ _ ?_ p hp
    intro q hq
    rcases mem_assocUpdate hq with hq | rfl
    · exact hfigs q hq
    · exact hP fp

theorem execPreGateState_figures (cfg : PipeConfig) (orc : PipeOracles) (paper : PaperContent)
    (plan : List FigurePlan) (mov : Option (String × Bool)) :
    (execPreGateState cfg orc paper plan mov).figures =
      some (processPlan cfg orc paper plan [] [] []).1 := rfl

theorem execPreGateState_planJson (cfg : PipeConfig) (orc : PipeOracles) (paper : PaperContent)
    (plan : List FigurePlan) (mov : Option (String × Bool)) :
    (execPreGateState cfg orc paper plan mov).planJson = some (plan.map planToDict) := rfl

theorem execPreGateState_inspectJson (cfg : PipeConfig) (orc : PipeOracles) (paper : PaperContent)
    (plan : List FigurePlan) (mov : Option (String × Bool)) :
    (execPreGateState cfg orc paper plan mov).inspectJson =
      some (inspectRun cfg.max_iterations orc.run_id
        (execLoopState cfg orc paper plan mov) false none none none) := rfl

theorem execPreGateState_docsDriftJson (cfg : PipeConfig) (orc : PipeOracles) (paper : PaperContent)
    (plan : List FigurePlan) (mov : Option (String × Bool)) :
    (execPreGateState cfg orc paper plan mov).docsDriftJson =
      some (orc.docsCheck (!cfg.docs_auto_regen_on_generate)) := rfl

theorem execLoopState_figures (cfg : PipeConfig) (orc : PipeOracles) (paper : PaperContent)
    (plan : List FigurePlan) (mov : Option (String × Bool)) :
    (execLoopState cfg orc paper plan mov).figures =
      some (processPlan cfg orc paper plan [] [] []).1 := rfl

theorem execGeneration_stable_fields (cfg : PipeConfig) (orc : PipeOracles)
    (paper : PaperContent) (plan : List FigurePlan) (mov : Option (String × Bool)) :
    (execGeneration cfg orc paper plan mov).1.figures =
      (execPreGateState cfg orc paper plan mov).figures ∧
    (execGeneration cfg orc paper plan mov).1.planJson =
      (execPreGateState cfg orc paper plan mov).planJson ∧
    (execGeneration cfg orc paper plan mov).1.runJson =
      (execPreGateState cfg orc paper plan mov).runJson ∧
    (execGeneration cfg orc paper plan mov).1.inspectJson =
      (execPreGateState cfg orc paper plan mov).inspectJson ∧
    (execGeneration cfg orc paper plan mov).1.docsDriftJson =
      (execPreGateState cfg orc paper plan mov).docsDriftJson := by
  simp only [execGeneration, finishAudit]
  split_ifs <;> exact ⟨rfl, rfl, rfl, rfl, rfl⟩

theorem mem_applyInspectFilters {fid : Option String} {fo : Bool} {ms : Option ℚ}
    {fdim : Option String} {items : List FigureSummary} {x : FigureSummary}
    (h : x ∈ applyInspectFilters fid fo ms fdim items) : x ∈ items := by
  unfold applyInspectFilters at h
  rcases fdim with _ | d <;> rcases ms with _ | m <;> rcases fid with _ | f <;> cases fo <;>
    simp_all [List.mem_filter]

theorem inspectRun_figures_shape (selfMax : Nat) (rid : String) (rd : RunDir)
    (fo : Bool) (fid : Option String) (ms : Option ℚ) (fdim : Option String) :
    ∀ fs ∈ (inspectRun selfMax rid rd fo fid ms fdim).figures,
      ∃ figs p pb rm, rd.figures = some figs ∧ p ∈ figs ∧
        fs = figureSummaryOf pb rm p.1 p.2 := by
  intro fs hfs
  unfold inspectRun at hfs
  cases hrd : rd.figures with
  | none => rw [hrd] at hfs; simp at hfs
  | some figdirs =>
    rw [hrd] at hfs
    have hfs2 := mem_applyInspectFilters hfs
    obtain ⟨p, hp, rfl⟩ := List.mem_map.mp hfs2
    exact ⟨figdirs, p, _, _, rfl, (mem_sortedByKey _ _ _).mp hp, rfl⟩

theorem get_length_sub_one_of_getLast? {α : Type} :
    ∀ (l : List α) (a : α), l.getLast? = some a →
      ∀ (h : l.length - 1 < l.length), l.get ⟨l.length - 1, h⟩ = a := by
  intro l
  induction l with
  | nil => intro a ha; simp at ha
  | cons x xs ih =>
    intro a ha h
    cases xs with
    | nil => simpa using ha
    | cons y ys =>
      rw [List.getLast?_cons_cons] at ha
      exact ih a ha (by simp)

theorem mem_of_getLast?_eq {α : Type} {l : List α} {a : α}
    (h : l.getLast? = some a) : a ∈ l := by
  cases l with
  | nil => simp at h
  | cons x xs =>
    have h' : (x :: xs).length - 1 < (x :: xs).length := by simp
    rw [← get_length_sub_one_of_getLast? (x :: xs) a h h']
    exact List.get_mem _ _ _

/-- C9: for every figure in a generated run, `iterations_attempted` reported
by inspect (the number of `iter_<n>` critique records) is at most the run's
configured `max_iterations` — both for any later `inspect` invocation over
the run directory (any filters, any ambient default) and for the snapshot
persisted as `inspect.json` during generation. -/
theorem C9_iterations_bounded (cfg : PipeConfig) (orc : PipeOracles) (paper : PaperContent)
    (plan : List FigurePlan) (mov : Option (String × Bool))
    (selfMax : Nat) (rid : String) (fo : Bool) (fid : Option String)
    (ms : Option ℚ) (fdim : Option String) :
    (∀ fs ∈ (inspectRun selfMax rid (execGeneration cfg orc paper plan mov).1
        fo fid ms fdim).figures,
      fs.iterations_attempted ≤ cfg.max_iterations) ∧
    (∀ snap, (execGeneration cfg orc paper plan mov).1.inspectJson = some snap →
      ∀ fs ∈ snap.figures, fs.iterations_attempted ≤ cfg.max_iterations) := by
  have hbound : ∀ (rd : RunDir),
      rd.figures = some (processPlan cfg orc paper plan [] [] []).1 →
      ∀ (sm : Nat) (r : String) (a : Bool) (b : Option String) (c2 : Option ℚ)
        (d : Option String),
      ∀ fs ∈ (inspectRun sm r rd a b c2 d).figures,
        fs.iterations_attempted ≤ cfg.max_iterations := by
    intro rd hrd sm r a b c2 d fs hfs
    obtain ⟨figs, p, pb, rm, hfigs, hp, rfl⟩ :=
      inspectRun_figures_shape sm r rd a b c2 d fs hfs
    rw [hrd] at hfigs
    obtain rfl : (processPlan cfg orc paper plan [] [] []).1 = figs := by
      injection hfigs
    have hP := processPlan_entries_prop cfg orc paper
      (fun fd => fd.iters.length ≤ cfg.max_iterations)
      (fun fp => runIters_length_le (orc.gen fp)
        (fun c => criticCritique cfg.quality_threshold cfg.dimension_threshold c.svg fp paper)
        cfg.max_iterations 1 none)
      plan [] [] [] (by simp) p hp
    exact hP
  constructor
  · exact hbound _
      ((execGeneration_stable_fields cfg orc paper plan mov).1.trans
        (execPreGateState_figures cfg orc paper plan mov))
      selfMax rid fo fid ms fdim
  · intro snap hsnap fs hfs
    have hins := (execGeneration_stable_fields cfg orc paper plan mov).2.2.2.1.trans
      (execPreGateState_inspectJson cfg orc paper plan mov)
    rw [hsnap] at hins
    obtain rfl : snap = inspectRun cfg.max_iterations orc.run_id
        (execLoopState cfg orc paper plan mov) false none none none := by
      injection hins
    exact hbound _ (execLoopState_figures cfg orc paper plan mov)
      cfg.max_iterations orc.run_id false none none none fs hfs

set_option maxRecDepth 10000 in
/-- Witness for C9 at a concrete one-figure run: the sole figure summary
reports at most `max_iterations` attempts. -/
theorem C9_iterations_bounded_witness :
    ((inspectRun 3 "run-1" (execGeneration cfgW orcW paperW [fpW] none).1
        false none none none).figures.headI).iterations_attempted ≤ cfgW.max_iterations :=
  (C9_iterations_bounded cfgW orcW paperW [fpW] none 3 "run-1" false none none none).1
    _ (by with_unfolding_all decide)

theorem figureOutcome_final_props (g : Nat → Option Feedback → Candidate)
    (c : Candidate → CritiqueReport) (m : Nat) (hmax : 1 ≤ m) :
    ∃ last, (figureOutcome g c m).iters.getLast? = some last ∧
      (figureOutcome g c m).final = some last.candidate ∧
      ((∃ r ∈ (figureOutcome g c m).iters, r.report.passed = true) →
        last.report.passed = true) ∧
      ((∀ r ∈ (figureOutcome g c m).iters, r.report.passed = false) →
        last.iteration = m) := by
  have hne : (runIters g c 1 m none).1 ≠ [] := runIters_ne_nil g c m 1 none hmax
  refine ⟨(runIters g c 1 m none).1.getLast hne, List.getLast?_eq_getLast _ hne, ?_, ?_, ?_⟩
  · show ((runIters g c 1 m none).1.getLast?).map (·.candidate) = _
    rw [List.getLast?_eq_getLast _ hne]
    rfl
  · rintro ⟨r, hr, hrp⟩
    have hacc := runIters_mem_passed g c m 1 none r hr hrp
    obtain ⟨last', hl', hp'⟩ := runIters_accepted_last g c m 1 none hacc
    rw [List.getLast?_eq_getLast _ hne] at hl'
    obtain rfl : last' = (runIters g c 1 m none).1.getLast hne := by
      injection hl' with h
      exact h.symm
    exact hp'
  · intro hall
    cases hacc : (runIters g c 1 m none).2 with
    | true =>
      obtain ⟨last', hl', hp'⟩ := runIters_accepted_last g c m 1 none hacc
      have hmem : last' ∈ (runIters g c 1 m none).1 := mem_of_getLast?_eq hl'
      rw [hall last' hmem] at hp'
      cases hp'
    | false =>
      have hlen := runIters_not_accepted_length g c m 1 none hacc
      have h' : (runIters g c 1 m none).1.length - 1 < (runIters g c 1 m none).1.length := by
        rw [hlen]; omega
      have h1 := runIters_get_iteration g c m 1 none
        ((runIters g c 1 m none).1.length - 1) h'
      have h2 := get_length_sub_one_of_getLast? _ _
        (List.getLast?_eq_getLast (runIters g c 1 m none).1 hne) h'
      rw [h2] at h1
      rw [h1, hlen]
      omega

/-- C1 (amended: under a positive iteration cap).  For every plan entry of a
successfully completed generation, the run holds a final artifact set for
that figure id: `final/` contains exactly the last recorded iteration's
artifacts — the passing iteration's when some critique passed (the loop
breaks there, so it is last), and the `iter_<max_iterations>` fallback when
none did.  The amendment `1 ≤ max_iterations` is forced: with an iteration
cap of zero the loop never runs, nothing is copied, and generate can still
complete successfully (see the counterexample). -/
theorem C1_final_artifacts (cfg : PipeConfig) (orc : PipeOracles) (paper : PaperContent)
    (plan : List FigurePlan) (mov : Option (String × Bool)) (rid : String) (fp : FigurePlan)
    (hmax : 1 ≤ cfg.max_iterations)
    (hok : (execGeneration cfg orc paper plan mov).2 = Except.ok rid)
    (hfp : fp ∈ plan) :
    ∃ figs fd last,
      (execGeneration cfg orc paper plan mov).1.figures = some figs ∧
      dictGet figs fp.figure_id = some fd ∧
      fd.iters.getLast? = some last ∧
      fd.final = some last.candidate ∧
      ((∃ r ∈ fd.iters, r.report.passed = true) → last.report.passed = true) ∧
      ((∀ r ∈ fd.iters, r.report.passed = false) → last.iteration = cfg.max_iterations) := by
  have hfigs := (execGeneration_stable_fields cfg orc paper plan mov).1.trans
    (execPreGateState_figures cfg orc paper plan mov)
  have hkeys := processPlan_keys cfg orc paper plan [] [] [] fp hfp
  obtain ⟨fd, hfd⟩ := dictGet_isSome_of_mem_keys hkeys
  have hmem := dictGet_mem hfd
  have hP := processPlan_entries_prop cfg orc paper
    (fun fdd => ∃ last, fdd.iters.getLast? = some last ∧ fdd.final = some last.candidate ∧
      ((∃ r ∈ fdd.iters, r.report.passed = true) → last.report.passed = true) ∧
      ((∀ r ∈ fdd.iters, r.report.passed = false) → last.iteration = cfg.max_iterations))
    (fun fp' => figureOutcome_final_props (orc.gen fp')
      (fun c => criticCritique cfg.quality_threshold cfg.dimension_threshold c.svg fp' paper)
      cfg.max_iterations hmax)
    plan [] [] [] (by simp) _ hmem
  obtain ⟨last, h1, h2, h3, h4⟩ := hP
  exact ⟨_, fd, last, hfigs, hfd, h1, h2, h3, h4⟩

set_option maxRecDepth 10000 in
/-- Witness for C1 at a concrete successful run with one plan figure. -/
theorem C1_final_artifacts_witness :
    ∃ figs fd last,
      (execGeneration cfgW orcW paperW [fpW] none).1.figures = some figs ∧
      dictGet figs fpW.figure_id = some fd ∧
      fd.iters.getLast? = some last ∧
      fd.final = some last.candidate ∧
      ((∃ r ∈ fd.iters, r.report.passed = true) → last.report.passed = true) ∧
      ((∀ r ∈ fd.iters, r.report.passed = false) → last.iteration = cfgW.max_iterations) :=
  C1_final_artifacts cfgW orcW paperW [fpW] none "run-1" fpW (by decide)
    (by with_unfolding_all rfl) (by decide)

set_option maxRecDepth 10000 in
/-- Counterexample to C1 exactly as stated: with `max_iterations = 0` (and
gates configured off/soft), `generate` completes successfully — returning
the run id with no exception — yet the only plan figure's directory holds no
iterations and no `final/` artifact set. -/
theorem C1_counterexample :
    (execGeneration cfgZeroW orcW paperW [fpW] none).2 = Except.ok "run-1" ∧
    (execGeneration cfgZeroW orcW paperW [fpW] none).1.figures =
      some [("fig-a", { iters := [], final := none })] :=
  ⟨by with_unfolding_all rfl, by with_unfolding_all rfl⟩

theorem planToDict_planFromDict (d : PlanDict) : planToDict (planFromDict d) = d := rfl

theorem map_planToDict_planFromDict (ds : List PlanDict) :
    (ds.map planFromDict).map planToDict = ds := by
  induction ds with
  | nil => rfl
  | cons d rest ih => simp [ih, planToDict_planFromDict]

theorem execGeneration_rerun_tag (cfg : PipeConfig) (orc : PipeOracles) (paper : PaperContent)
    (plan : List FigurePlan) (sid : String) (b : Bool) :
    ((execGeneration cfg orc paper plan (some (sid, b))).1.runJson).map RunMeta.rerun_of =
      some (some sid) := by
  rw [(execGeneration_stable_fields cfg orc paper plan (some (sid, b))).2.2.1]
  rfl

/-- C3: rerun on a source run with a persisted non-empty plan replays the
persisted plan verbatim: the new run's `plan.json` equals the source run's
entry for entry (hence in figure_id, title, kind, order and source spans),
the new metadata is tagged `rerun_of = source`, and the result is the same
whatever planner the orchestrator carries — the plan is never re-derived
from the document. -/
theorem C3_rerun_replays_persisted_plan (cfg : PipeConfig) (orc : PipeOracles)
    (paper : PaperContent) (planner : PaperContent → List FigurePlan)
    (src : RunDir) (sid : String) (meta : RunMeta) (ds : List PlanDict)
    (hmeta : src.runJson = some meta)
    (hplan : src.planJson = some ds)
    (hne : ds ≠ [])
    (hpaper : orc.paperExists = true) :
    ∃ rd res, rerunOp cfg orc paper planner true src sid = (some rd, res) ∧
      rd.planJson = some ds ∧
      (rd.runJson).map RunMeta.rerun_of = some (some sid) ∧
      ∀ planner2 : PaperContent → List FigurePlan,
        rerunOp cfg orc paper planner2 true src sid =
          rerunOp cfg orc paper planner true src sid := by
  have hne2 : (ds.map planFromDict).isEmpty = false := by
    cases ds with
    | nil => exact absurd rfl hne
    | cons d rest => rfl
  have key : ∀ pl : PaperContent → List FigurePlan,
      rerunOp cfg orc paper pl true src sid =
        (some (execGeneration
            { cfg with
                max_iterations := meta.max_iterations
                quality_threshold := meta.quality_threshold
                dimension_threshold := meta.dimension_threshold
                template_pack := meta.template_pack
                arch_critique_mode := meta.arch_critique_mode
                arch_critique_block_severity := meta.arch_critique_block_severity
                repro_audit_mode := meta.repro_audit_mode }
            orc paper (ds.map planFromDict) (some (sid, true))).1,
          (execGeneration
            { cfg with
                max_iterations := meta.max_iterations
                quality_threshold := meta.quality_threshold
                dimension_threshold := meta.dimension_threshold
                template_pack := meta.template_pack
                arch_critique_mode := meta.arch_critique_mode
                arch_critique_block_severity := meta.arch_critique_block_severity
                repro_audit_mode := meta.repro_audit_mode }
            orc paper (ds.map planFromDict) (some (sid, true))).2) := by
    intro pl
    unfold rerunOp
    rw [hmeta, hplan]
    simp [hpaper, hne2, generateOp]
  refine ⟨_, _, key planner, ?_, ?_, fun planner2 => (key planner2).trans (key planner).symm⟩
  · rw [(execGeneration_stable_fields _ orc paper (ds.map planFromDict) (some (sid, true))).2.1,
      execPreGateState_planJson]
    rw [map_planToDict_planFromDict]
  · exact execGeneration_rerun_tag _ orc paper (ds.map planFromDict) sid true

/-- Witness for C3 at a concrete source run holding a one-entry plan. -/
theorem C3_rerun_replays_persisted_plan_witness :
    ∃ rd res, rerunOp cfgW orcW paperW (fun _ => []) true srcW "run-0" = (some rd, res) ∧
      rd.planJson = some [planToDict fpW] ∧
      (rd.runJson).map RunMeta.rerun_of = some (some "run-0") ∧
      ∀ planner2 : PaperContent → List FigurePlan,
        rerunOp cfgW orcW paperW planner2 true srcW "run-0" =
          rerunOp cfgW orcW paperW (fun _ => []) true srcW "run-0" :=
  C3_rerun_replays_persisted_plan cfgW orcW paperW (fun _ => []) srcW "run-0" metaW
    [planToDict fpW] rfl rfl (by decide) rfl

/-- C5: when the docs-drift check invoked during generate reports
`drift_detected = true`, generate fails with the drift gate error, and at
that moment `docs_drift_report.json` has already been persisted in the run
directory with `drift_detected = true` — the report write precedes the gate
decision, whichever auto-regeneration mode is configured. -/
theorem C5_docs_drift_gate (cfg : PipeConfig) (orc : PipeOracles) (paper : PaperContent)
    (plan : List FigurePlan) (mov : Option (String × Bool))
    (hdrift : (orc.docsCheck (!cfg.docs_auto_regen_on_generate)).drift_detected = true) :
    (execGeneration cfg orc paper plan mov).2 = Except.error PipeError.docsDriftDetected ∧
    (execGeneration cfg orc paper plan mov).1.docsDriftJson =
      some (orc.docsCheck (!cfg.docs_auto_regen_on_generate)) ∧
    ((execGeneration cfg orc paper plan mov).1.docsDriftJson).map DocsReport.drift_detected =
      some true := by
  have h2 := (execGeneration_stable_fields cfg orc paper plan mov).2.2.2.2.trans
    (execPreGateState_docsDriftJson cfg orc paper plan mov)
  refine ⟨?_, h2, by rw [h2]; simp [hdrift]⟩
  simp [execGeneration, hdrift]

/-- Witness for C5 with a docs checker that reports drift. -/
theorem C5_docs_drift_gate_witness :
    (execGeneration cfgW orcDriftW paperW [fpW] none).2 =
      Except.error PipeError.docsDriftDetected ∧
    (execGeneration cfgW orcDriftW paperW [fpW] none).1.docsDriftJson =
      some (orcDriftW.docsCheck (!cfgW.docs_auto_regen_on_generate)) ∧
    ((execGeneration cfgW orcDriftW paperW [fpW] none).1.docsDriftJson).map
      DocsReport.drift_detected = some true :=
  C5_docs_drift_gate cfgW orcDriftW paperW [fpW] none (by decide)

theorem filter_requiredFailed_isEmpty_iff (checks : List ReproCheck) :
    ((checks.filter (fun c => c.required && !c.passed)).isEmpty = true ↔
      ∀ c ∈ checks, c.required = true → c.passed = true) := by
  rw [List.isEmpty_iff, List.filter_eq_nil_iff]
  constructor
  · intro h c hc hreq
    have := h c hc
    simp only [Bool.and_eq_true, Bool.not_eq_true', not_and, decide_eq_true_eq] at this
    simpa using this hreq
  · intro h c hc
    simp only [Bool.and_eq_true, Bool.not_eq_true', not_and, decide_eq_true_eq]
    intro hreq
    rw [h c hc hreq]
    simp

theorem finishAudit_error_iff (cfg : PipeConfig) (rid : String) (rd : RunDir) :
    ((finishAudit cfg rid rd).2 = Except.error PipeError.reproAuditFailed ↔
      (cfg.repro_audit_mode = "hard" ∧
        ∃ rep, (finishAudit cfg rid rd).1.reproJson = some rep ∧ rep.passed = false)) := by
  unfold finishAudit
  dsimp only
  by_cases hc : (cfg.repro_audit_mode == "hard" &&
      !(reproAudit rid rd cfg.repro_audit_mode (some cfg.config_fingerprint)).passed) = true
  · rw [if_pos hc]
    simp only [Bool.and_eq_true, Bool.not_eq_true', beq_iff_eq] at hc
    exact ⟨fun _ => ⟨hc.1, reproAudit rid rd cfg.repro_audit_mode (some cfg.config_fingerprint),
      rfl, hc.2⟩, fun _ => rfl⟩
  · rw [if_neg hc]
    constructor
    · intro h; simp at h
    · rintro ⟨hhard, rep, hrep, hpf⟩
      exfalso
      apply hc
      have hrep2 : reproAudit rid rd cfg.repro_audit_mode (some cfg.config_fingerprint) = rep := by
        simpa using hrep
      rw [Bool.and_eq_true]
      exact ⟨by simp [hhard], by simp [hrep2, hpf]⟩

theorem execGeneration_reaches_audit (cfg : PipeConfig) (orc : PipeOracles)
    (paper : PaperContent) (plan : List FigurePlan) (mov : Option (String × Bool))
    (hdrift : (orc.docsCheck (!cfg.docs_auto_regen_on_generate)).drift_detected = false)
    (harch : cfg.arch_critique_mode = "inline" →
      (archCritique orc.run_id (execPreGateState cfg orc paper plan mov)
        cfg.arch_critique_block_severity).blocked = false) :
    execGeneration cfg orc paper plan mov =
      (if cfg.arch_critique_mode == "inline" then
        finishAudit cfg orc.run_id
          {execPreGateState cfg orc paper plan mov with
            archJson := some (archCritique orc.run_id (execPreGateState cfg orc paper plan mov)
              cfg.arch_critique_block_severity)}
      else
        finishAudit cfg orc.run_id (execPreGateState cfg orc paper plan mov)) := by
  simp only [execGeneration]
  rw [if_neg (by simp [hdrift])]
  by_cases hmode : (cfg.arch_critique_mode == "inline") = true
  · rw [if_pos hmode, if_pos hmode]
    rw [if_neg]
    simp [harch (by simpa using hmode)]
  · rw [if_neg hmode, if_neg hmode]

/-- C8: (i) a reproducibility report's `passed` field is true iff no check
with `required = true` has `passed = false`; (ii) during generate, once the
docs-drift and architecture gates let the run through, the run aborts with
the audit error iff the configured audit mode is "hard" and the persisted
report did not pass — in any other mode the failed report is persisted but
the run completes. -/
theorem C8_repro_audit_gate :
    (∀ (rid : String) (rd : RunDir) (mode : String) (exp : Option String),
      ((reproAudit rid rd mode exp).passed = true ↔
        ∀ c ∈ (reproAudit rid rd mode exp).checks, c.required = true → c.passed = true)) ∧
    (∀ (cfg : PipeConfig) (orc : PipeOracles) (paper : PaperContent)
        (plan : List FigurePlan) (mov : Option (String × Bool)),
      (orc.docsCheck (!cfg.docs_auto_regen_on_generate)).drift_detected = false →
      (cfg.arch_critique_mode = "inline" →
        (archCritique orc.run_id (execPreGateState cfg orc paper plan mov)
          cfg.arch_critique_block_severity).blocked = false) →
      ((execGeneration cfg orc paper plan mov).2 = Except.error PipeError.reproAuditFailed ↔
        (cfg.repro_audit_mode = "hard" ∧
          ∃ rep, (execGeneration cfg orc paper plan mov).1.reproJson = some rep ∧
            rep.passed = false))) := by
  constructor
  · intro rid rd mode exp
    exact filter_requiredFailed_isEmpty_iff (reproAudit rid rd mode exp).checks
  · intro cfg orc paper plan mov hdrift harch
    rw [execGeneration_reaches_audit cfg orc paper plan mov hdrift harch]
    by_cases hmode : (cfg.arch_critique_mode == "inline") = true
    · rw [if_pos hmode]
      exact finishAudit_error_iff cfg orc.run_id _
    · rw [if_neg hmode]
      exact finishAudit_error_iff cfg orc.run_id _

set_option maxRecDepth 10000 in
/-- Witness for C8: a hard-mode run with the architecture critique off
(whose report artifact is therefore missing) fails the audit gate, and the
passed-iff characterization evaluated on the empty run directory. -/
theorem C8_repro_audit_gate_witness :
    (((reproAudit "run-x" emptyRunDir "soft" none).passed = true ↔
      ∀ c ∈ (reproAudit "run-x" emptyRunDir "soft" none).checks,
        c.required = true → c.passed = true)) ∧
    ((execGeneration cfgHardW orcW paperW [fpW] none).2 =
        Except.error PipeError.reproAuditFailed ↔
      (cfgHardW.repro_audit_mode = "hard" ∧
        ∃ rep, (execGeneration cfgHardW orcW paperW [fpW] none).1.reproJson = some rep ∧
          rep.passed = false)) :=
  ⟨C8_repro_audit_gate.1 "run-x" emptyRunDir "soft" none,
    C8_repro_audit_gate.2 cfgHardW orcW paperW [fpW] none (by decide) (by decide)⟩

theorem loadOrBuild_val_state (m : Nat) (rid : String) (rd : RunDir) :
    loadOrBuildInspectVal m rid (loadOrBuildInspectState m rid rd) =
      loadOrBuildInspectVal m rid rd := by
  cases h : rd.inspectJson with
  | some i => simp [loadOrBuildInspectVal, loadOrBuildInspectState, h]
  | none => simp [loadOrBuildInspectVal, loadOrBuildInspectState, h]

theorem loadOrBuildInspectState_of_isSome (m : Nat) (rid : String) (rd : RunDir)
    (h : rd.inspectJson.isSome = true) :
    loadOrBuildInspectState m rid rd = rd := by
  cases hx : rd.inspectJson with
  | some i => simp [loadOrBuildInspectState, hx]
  | none => rw [hx] at h; simp at h

theorem diffFigures_self (i : InspectSummary) : diffFigures i i = [] := by
  unfold diffFigures
  rw [List.filterMap_eq_nil_iff]
  intro fid hfid
  have hmem : fid ∈ (i.figures.map (fun f => (f.figure_id, f))).map Prod.fst := by
    have hs := (mem_sortedByKey id fid _).mp hfid
    have hd := (mem_dedupStr fid _).mp hs
    rcases List.mem_append.mp hd with h3 | h3 <;> exact h3
  obtain ⟨v, hv⟩ := dictGet_isSome_of_mem_keys hmem
  simp [hv]

theorem changedArtifact_self {α : Type} [DecidableEq α] (n : String) (a : Option α) :
    changedArtifact n a a = [] := by
  cases a <;> simp [changedArtifact]

theorem diffJsonArtifacts_self (rd : RunDir) : diffJsonArtifacts rd rd = [] := by
  simp [diffJsonArtifacts, changedArtifact_self]

theorem deltaOpt_self (x : Option ℚ) : deltaOpt x x = x.map (fun _ => (0 : ℚ)) := by
  cases x <;> simp [deltaOpt]

/-- C4 (amended: a metric delta is zero exactly when the underlying
aggregate value is numeric).  Diffing a run against itself reports zero
changed figures and zero changed artifacts; each metric delta is `0.0` when
the shared snapshot carries a numeric value for that metric, and `null`
(None, not zero) when it does not — e.g. `avg_final_score` of a run with no
scored figures.  The claim's "all three deltas equal zero" fails on such
runs (see the counterexample). -/
theorem C4_diff_self_reports_no_change (m : Nat) (rid : String) (rd : RunDir) :
    (diffSelf m rid rd).1.changed_figures = [] ∧
    (diffSelf m rid rd).1.changed_artifacts = [] ∧
    (diffSelf m rid rd).1.changed_figure_count = 0 ∧
    (diffSelf m rid rd).1.changed_artifact_count = 0 ∧
    (diffSelf m rid rd).1.accepted_count_delta =
      (aggAccepted (loadOrBuildInspectVal m rid rd)).map (fun _ => (0 : ℚ)) ∧
    (diffSelf m rid rd).1.avg_final_score_delta =
      (aggAvgScore (loadOrBuildInspectVal m rid rd)).map (fun _ => (0 : ℚ)) ∧
    (diffSelf m rid rd).1.avg_traceability_coverage_delta =
      (aggAvgCov (loadOrBuildInspectVal m rid rd)).map (fun _ => (0 : ℚ)) := by
  unfold diffSelf diffReportOf
  dsimp only
  rw [loadOrBuild_val_state]
  refine ⟨diffFigures_self _, diffJsonArtifacts_self _, ?_, ?_,
    deltaOpt_self _, deltaOpt_self _, deltaOpt_self _⟩
  · rw [diffFigures_self]; rfl
  · rw [diffJsonArtifacts_self]; rfl

set_option maxRecDepth 10000 in
/-- Counterexample to C4 exactly as stated: a run generated from an empty
plan exists, and diffing it against itself yields `avg_final_score` delta
`null`, not zero. -/
theorem C4_counterexample :
    (diffSelf 3 "run-1" emptyPlanRunW).1.avg_final_score_delta = none ∧
    ¬((diffSelf 3 "run-1" emptyPlanRunW).1.avg_final_score_delta = some 0) := by
  have h : (diffSelf 3 "run-1" emptyPlanRunW).1.avg_final_score_delta = none := by
    with_unfolding_all rfl
  exact ⟨h, by rw [h]; simp⟩

/-- C7 (amended: diff is write-free on a source run exactly when that run
already holds an inspect snapshot).  When both runs have an `inspect.json`,
diff performs no writes inside either run directory: both directories are
unchanged when diff returns, and the report goes to the fresh diff
directory.  When a snapshot is missing, diff's lazy build-and-persist writes
that run's `inspect.json` — the one write the claim as stated rules out (see
the counterexample). -/
theorem C7_diff_pure_on_sources (m : Nat) (rid1 rid2 : String) (rd1 rd2 : RunDir)
    (h1 : rd1.inspectJson.isSome = true) (h2 : rd2.inspectJson.isSome = true) :
    (diffOp m rid1 rid2 rd1 rd2).2.1 = rd1 ∧ (diffOp m rid1 rid2 rd1 rd2).2.2 = rd2 :=
  ⟨loadOrBuildInspectState_of_isSome m rid1 rd1 h1,
    loadOrBuildInspectState_of_isSome m rid2 rd2 h2⟩

/-- Witness for C7 on two run directories that already hold snapshots. -/
theorem C7_diff_pure_on_sources_witness :
    (diffOp 3 "e1" "e2" (loadOrBuildInspectState 3 "e1" emptyRunDir)
        (loadOrBuildInspectState 3 "e2" emptyRunDir)).2.1 =
      loadOrBuildInspectState 3 "e1" emptyRunDir ∧
    (diffOp 3 "e1" "e2" (loadOrBuildInspectState 3 "e1" emptyRunDir)
        (loadOrBuildInspectState 3 "e2" emptyRunDir)).2.2 =
      loadOrBuildInspectState 3 "e2" emptyRunDir :=
  C7_diff_pure_on_sources 3 "e1" "e2" _ _ (by decide) (by decide)

/-- Counterexample to C7 exactly as stated: diffing two partially-written
runs that lack `inspect.json` (diff applies to every pair of existing run
ids) changes the first run directory — the lazily built snapshot is
persisted into it. -/
theorem C7_counterexample :
    (diffOp 3 "e1" "e2" emptyRunDir emptyRunDir).2.1 ≠ emptyRunDir := by decide

set_option maxRecDepth 10000 in
/-- Witness for C10: the invalid-check vacuity instantiated at an issue the
rejected SVG actually generates, and the passed-characterization at the
accepted SVG. -/
theorem C10_critique_passed_characterization_witness :
    strContainsSub (pyLower readabilityIssue) "invalid" = false ∧
    ((criticCritique 0.75 0.55 svgPassW fpW paperW).passed = true ↔
      (0.75 ≤ criticScore svgPassW fpW paperW ∧
        (criticCritique 0.75 0.55 svgPassW fpW paperW).failed_dimensions = [])) :=
  ⟨(C10_critique_passed_characterization 0.75 0.55 svgFailW fpW paperW).2.2.2
      readabilityIssue (by with_unfolding_all decide),
    (C10_critique_passed_characterization 0.75 0.55 svgPassW fpW paperW).2.2.1⟩
